import Mathlib

/-!
# ATA-over-Ethernet responder (`net::aoe::stack::Server`)

A shallow embedding of `source/net_aoe_stack_server.cpp`.

* The shared buffer and every inbound frame are byte memories, modelled as
  functions from a byte offset to a cell; the byte held by a cell is its value
  modulo 256.
* The header views (`eth::Header`, `aoe::Header`, `aoe::query::Header`,
  `aoe::issue::Header`, `aoe::issue::identify::Header`) are declared in `net.h`,
  which is not part of the sources at hand; their accessors are modelled from the
  wire table of the specification.
* The transmit, read and write collaborators are handlers over an abstract world
  state; `process` returns the calls it made, in order.
* `_debug` only prints and is left out.
-/

namespace AoE

/-! ## Byte memory -/

/-- A byte memory: the cell at each byte offset. -/
abbrev Buffer := Nat → Nat

/-- The byte stored at offset `i`. -/
def getByte (b : Buffer) (i : Nat) : Nat := b i % 256

/-- Store the low eight bits of `v` at offset `i`. -/
def setByte (b : Buffer) (i v : Nat) : Buffer :=
  fun j => if j = i then v % 256 else b j

/-- Read the unsigned integer whose bytes sit at the offsets `ps`, most significant first. -/
def getBytes : List Nat → Buffer → Nat
  | [], _ => 0
  | p :: ps, b => getByte b p * 256 ^ ps.length + getBytes ps b

/-- Store `v`, truncated to the width of the field, at the offsets `ps`, most significant first. -/
def setBytes : List Nat → Nat → Buffer → Buffer
  | [], _, b => b
  | p :: ps, v, b => setBytes ps v (setByte b p (v / 256 ^ ps.length))

/-- Read the bit field of byte `p` that starts at weight `u` and has `m` values. -/
def getBits (p u m : Nat) (b : Buffer) : Nat := getByte b p / u % m

/-- Store `v`, truncated to the field, in the bit field of byte `p` that starts at
weight `u` and has `m` values; the other bits of the byte are kept. -/
def setBits (p u m v : Nat) (b : Buffer) : Buffer :=
  setByte b p (getByte b p - getBits p u m b * u + v % m * u)

/-- Copy the 512 bytes of `block` to the offsets `off .. off + 511`. -/
def blit (b : Buffer) (off : Nat) (block : Nat → Nat) : Buffer :=
  fun j => if off ≤ j ∧ j < off + 512 then block (j - off) else b j

/-- The 512 bytes of `b` that start at offset `off` (the view `&b[off]`). -/
def window (b : Buffer) (off : Nat) : Nat → Nat := fun j => b (off + j)

/-- A byte memory holding the bytes of `l` from offset 0 on, and zero after them. -/
def frameOf (l : List Nat) : Buffer := fun i => l.getD i 0

/-! ## Frame codec -/

namespace eth

/-- Modelled from the spec: `eth::address::Broadcast` is not in the sources; the
all-ones MAC address, as the 48-bit number of its six bytes. -/
def address.Broadcast : Nat := 0xffffffffffff

/-- Modelled from the spec: `eth::address::Empty` is not in the sources; the
all-zero MAC address. -/
def address.Empty : Nat := 0

/-- Modelled from the spec: `eth::type::Aoe` is not in the sources; the AoE ethertype. -/
def type.Aoe : Nat := 0x88a2

/-- Modelled from the spec: `eth::Header::destination` is not in the sources; wire
table, Ethernet layer, offset 0, six bytes. -/
def destination (b : Buffer) : Nat := getBytes [0, 1, 2, 3, 4, 5] b

/-- Modelled from the spec: assignment to `eth::Header::destination`. -/
def set_destination (v : Nat) (b : Buffer) : Buffer := setBytes [0, 1, 2, 3, 4, 5] v b

/-- Modelled from the spec: `eth::Header::source` is not in the sources; wire table,
Ethernet layer, six bytes after the destination. -/
def source (b : Buffer) : Nat := getBytes [6, 7, 8, 9, 10, 11] b

/-- Modelled from the spec: assignment to `eth::Header::source`. -/
def set_source (v : Nat) (b : Buffer) : Buffer := setBytes [6, 7, 8, 9, 10, 11] v b

/-- Modelled from the spec: `eth::Header::type` is not in the sources; wire table,
Ethernet layer, two bytes after the source. -/
def type (b : Buffer) : Nat := getBytes [12, 13] b

/-- Modelled from the spec: assignment to `eth::Header::type`. -/
def set_type (v : Nat) (b : Buffer) : Buffer := setBytes [12, 13] v b

end eth

namespace aoe

/-- Modelled from the spec: `aoe::command::Query_config_information` is not in the
sources; the AoE command code of a config query. -/
def command.Query_config_information : Nat := 1

/-- Modelled from the spec: `aoe::command::Issue_ata_command` is not in the sources;
the AoE command code of an ATA command. -/
def command.Issue_ata_command : Nat := 0

/-- Modelled from the spec: `aoe::Header::version` is not in the sources; wire table,
AoE layer offset 14, `version+flags(1)`: the high four bits of byte 14. -/
def version (b : Buffer) : Nat := getBits 14 16 16 b

/-- Modelled from the spec: assignment to `aoe::Header::version`. -/
def set_version (v : Nat) (b : Buffer) : Buffer := setBits 14 16 16 v b

/-- Modelled from the spec: `aoe::Header::flag_response` is not in the sources; a flag
bit of byte 14 (bit 3). -/
def flag_response (b : Buffer) : Bool := getBits 14 8 2 b = 1

/-- Modelled from the spec: assignment to `aoe::Header::flag_response`. -/
def set_flag_response (v : Bool) (b : Buffer) : Buffer := setBits 14 8 2 (if v then 1 else 0) b

/-- Modelled from the spec: `aoe::Header::flag_error` is not in the sources; a flag bit
of byte 14 (bit 2). -/
def flag_error (b : Buffer) : Bool := getBits 14 4 2 b = 1

/-- Modelled from the spec: assignment to `aoe::Header::flag_error`. -/
def set_flag_error (v : Bool) (b : Buffer) : Buffer := setBits 14 4 2 (if v then 1 else 0) b

/-- Modelled from the spec: `aoe::Header::error` is not in the sources; wire table,
`error(1)`: byte 15. -/
def error (b : Buffer) : Nat := getBytes [15] b

/-- Modelled from the spec: assignment to `aoe::Header::error`. -/
def set_error (v : Nat) (b : Buffer) : Buffer := setBytes [15] v b

/-- Modelled from the spec: `aoe::Header::address_major` is not in the sources; wire
table, `major(2)`: bytes 16 and 17. -/
def address_major (b : Buffer) : Nat := getBytes [16, 17] b

/-- Modelled from the spec: assignment to `aoe::Header::address_major`. -/
def set_address_major (v : Nat) (b : Buffer) : Buffer := setBytes [16, 17] v b

/-- Modelled from the spec: `aoe::Header::address_minor` is not in the sources; wire
table, `minor(1)`: byte 18. -/
def address_minor (b : Buffer) : Nat := getBytes [18] b

/-- Modelled from the spec: assignment to `aoe::Header::address_minor`. -/
def set_address_minor (v : Nat) (b : Buffer) : Buffer := setBytes [18] v b

/-- Modelled from the spec: `aoe::Header::command` is not in the sources; wire table,
`command(1)`: byte 19. -/
def command (b : Buffer) : Nat := getBytes [19] b

/-- Modelled from the spec: assignment to `aoe::Header::command`. -/
def set_command (v : Nat) (b : Buffer) : Buffer := setBytes [19] v b

/-- Modelled from the spec: `aoe::Header::tag` is not in the sources; wire table,
`tag(4)`: bytes 20 to 23. -/
def tag (b : Buffer) : Nat := getBytes [20, 21, 22, 23] b

/-- Modelled from the spec: assignment to `aoe::Header::tag`. -/
def set_tag (v : Nat) (b : Buffer) : Buffer := setBytes [20, 21, 22, 23] v b

namespace query

/-- Modelled from the spec: `aoe::query::command::Read_config_string` is not in the
sources; the config-query sub-command that reads the config string. -/
def command.Read_config_string : Nat := 0

/-- Modelled from the spec: `aoe::query::Header::buffer_count` is not in the sources;
wire table, Query layer offset 24, `buffer_count(1)`. -/
def buffer_count (b : Buffer) : Nat := getBytes [24] b

/-- Modelled from the spec: assignment to `aoe::query::Header::buffer_count`. -/
def set_buffer_count (v : Nat) (b : Buffer) : Buffer := setBytes [24] v b

/-- Modelled from the spec: `aoe::query::Header::firmware_version` is not in the
sources; wire table, `firmware_version(2)`. -/
def firmware_version (b : Buffer) : Nat := getBytes [25, 26] b

/-- Modelled from the spec: assignment to `aoe::query::Header::firmware_version`. -/
def set_firmware_version (v : Nat) (b : Buffer) : Buffer := setBytes [25, 26] v b

/-- Modelled from the spec: `aoe::query::Header::sector_count` is not in the sources;
wire table, `sector_count(1)`. -/
def sector_count (b : Buffer) : Nat := getBytes [27] b

/-- Modelled from the spec: assignment to `aoe::query::Header::sector_count`. -/
def set_sector_count (v : Nat) (b : Buffer) : Buffer := setBytes [27] v b

/-- Modelled from the spec: `aoe::query::Header::aoe_version` is not in the sources;
wire table, `aoe_ver/cmd(1)`: the high four bits of that byte. -/
def aoe_version (b : Buffer) : Nat := getBits 28 16 16 b

/-- Modelled from the spec: assignment to `aoe::query::Header::aoe_version`. -/
def set_aoe_version (v : Nat) (b : Buffer) : Buffer := setBits 28 16 16 v b

/-- Modelled from the spec: `aoe::query::Header::command` is not in the sources; wire
table, `aoe_ver/cmd(1)`: the low four bits of that byte. -/
def command (b : Buffer) : Nat := getBits 28 1 16 b

/-- Modelled from the spec: assignment to `aoe::query::Header::command`. -/
def set_command (v : Nat) (b : Buffer) : Buffer := setBits 28 1 16 v b

/-- Modelled from the spec: `aoe::query::Header::config_string_length` is not in the
sources; wire table, `config_string_length(2)`. -/
def config_string_length (b : Buffer) : Nat := getBytes [29, 30] b

/-- Modelled from the spec: assignment to `aoe::query::Header::config_string_length`. -/
def set_config_string_length (v : Nat) (b : Buffer) : Buffer := setBytes [29, 30] v b

end query

namespace issue

/-- Modelled from the spec: `aoe::issue::command::Identify_Device` is not in the
sources; the ATA opcode IDENTIFY DEVICE. -/
def command.Identify_Device : Nat := 0xec

/-- Modelled from the spec: `aoe::issue::command::Read_sectors_with_retry` is not in
the sources; the ATA opcode READ SECTORS. -/
def command.Read_sectors_with_retry : Nat := 0x20

/-- Modelled from the spec: `aoe::issue::command::Write_sectors_with_retry` is not in
the sources; the ATA opcode WRITE SECTORS. -/
def command.Write_sectors_with_retry : Nat := 0x30

/-- Modelled from the spec: `aoe::issue::Header::sector_count` is not in the sources;
wire table, Issue layer offset 24, `aflags/err/feature/sector_count/cmd/lba`: the third
byte, one byte wide. -/
def sector_count (b : Buffer) : Nat := getBytes [26] b

/-- Modelled from the spec: `aoe::issue::Header::command` is not in the sources; wire
table, Issue layer: the fourth byte, which is the status byte on a response. -/
def command (b : Buffer) : Nat := getBytes [27] b

/-- Modelled from the spec: `aoe::issue::Header::status_device_ready` is not in the
sources; a bit of the status byte (bit 6, the ATA DRDY bit). -/
def status_device_ready (b : Buffer) : Bool := getBits 27 64 2 b = 1

/-- Modelled from the spec: assignment to `aoe::issue::Header::status_device_ready`. -/
def set_status_device_ready (v : Bool) (b : Buffer) : Buffer :=
  setBits 27 64 2 (if v then 1 else 0) b

/-- Modelled from the spec: `aoe::issue::Header::status_error` is not in the sources; a
bit of the status byte (bit 0, the ATA ERR bit). -/
def status_error (b : Buffer) : Bool := getBits 27 1 2 b = 1

/-- Modelled from the spec: assignment to `aoe::issue::Header::status_error`. -/
def set_status_error (v : Bool) (b : Buffer) : Buffer :=
  setBits 27 1 2 (if v then 1 else 0) b

/-- Modelled from the spec: `aoe::issue::Header::lba` is not in the sources; wire
table, Issue layer: the six address bytes after the command byte, lowest byte first. -/
def lba (b : Buffer) : Nat := getBytes [33, 32, 31, 30, 29, 28] b

/-- Modelled from the spec: assignment to `aoe::issue::Header::lba`. -/
def set_lba (v : Nat) (b : Buffer) : Buffer := setBytes [33, 32, 31, 30, 29, 28] v b

namespace identify

/-- Modelled from the spec: `aoe::issue::identify::Header::logical_sector_number` is not
in the sources; wire table, Identify layer offset 36: the 64-bit sector count of the ATA
IDENTIFY block (words 100 to 103, lowest byte first). -/
def logical_sector_number (b : Buffer) : Nat :=
  getBytes [243, 242, 241, 240, 239, 238, 237, 236] b

/-- Modelled from the spec: assignment to
`aoe::issue::identify::Header::logical_sector_number`. -/
def set_logical_sector_number (v : Nat) (b : Buffer) : Buffer :=
  setBytes [243, 242, 241, 240, 239, 238, 237, 236] v b

end identify

end issue

end aoe

/-! ## The responder -/

namespace stack

/-- The compile-time constants that the responder uses and `net.h` declares; they are
not in the sources at hand and are taken as parameters. -/
structure Constants where
  /-- The constant `aoe_version`. -/
  aoe_version : Nat
  /-- The constant `buffer_count`. -/
  buffer_count : Nat
  /-- The constant `firmware_version`. -/
  firmware_version : Nat
  /-- The constant `sector_count`. -/
  sector_count : Nat
  /-- The constant `timeout`, forwarded to the transmit collaborator. -/
  timeout : Nat

/-- The state of a `Server`: its identity, its geometry and the shared buffer. -/
structure Server where
  /-- The member `_major`. -/
  _major : Nat
  /-- The member `_minor`. -/
  _minor : Nat
  /-- The member `_sectors`. -/
  _sectors : Nat
  /-- The member `_buffer`. -/
  _buffer : Buffer

/-- The answer of the read collaborator: the 512 bytes it stored at the destination,
its boolean result and the world it leaves. -/
structure ReadResult (σ : Type) where
  /-- The bytes stored, by offset within the sector. -/
  bytes : Nat → Nat
  /-- The boolean result. -/
  ok : Bool
  /-- The world after the call. -/
  world : σ

/-- The collaborators `_transmitt`, `_read` and `_write`, over a world state `σ`. -/
structure Handlers (σ : Type) where
  /-- The call `_transmitt(buffer, length, timeout)`. -/
  transmitt : σ → Buffer → Nat → Nat → Bool × σ
  /-- The call `_read(destination, lba)`. -/
  read : σ → Nat → ReadResult σ
  /-- The call `_write(source, lba)`. -/
  write : σ → (Nat → Nat) → Nat → Bool × σ

/-- One call to a collaborator. -/
inductive Call where
  /-- The call `_transmitt(_buffer, length, timeout)`, with the content of the buffer. -/
  | transmitt (frame : Buffer) (length timeout : Nat)
  /-- The call `_read(&_buffer[offset], lba)`. -/
  | read (offset lba : Nat)
  /-- The call `_write(&data[offset], lba)`, with the 512 bytes found there. -/
  | write (payload : Nat → Nat) (lba : Nat)

/-- Whether a call is a call to the transmit collaborator. -/
def Call.isTransmitt : Call → Bool
  | .transmitt _ _ _ => true
  | _ => false

/-- What a member function leaves behind: the server, the world, and the calls made to
the collaborators, in order. -/
structure Outcome (σ : Type) where
  /-- The server on return. -/
  server : Server
  /-- The world on return. -/
  world : σ
  /-- The collaborator calls, oldest first. -/
  calls : List Call

/-- The result of a sector loop: its boolean result, the buffer, the world and the calls
made. -/
structure LoopResult (σ : Type) where
  /-- The value returned. -/
  result : Bool
  /-- The shared buffer after the loop. -/
  buffer : Buffer
  /-- The world after the loop. -/
  world : σ
  /-- The collaborator calls, oldest first. -/
  calls : List Call

/-- The function `Server::_clear`: `memset(_buffer, 0, size_buffer)`. -/
def _clear (s : Server) : Server := { s with _buffer := fun _ => 0 }

/-- The constructor `Server::Server`, which stores its arguments and clears the buffer;
`garbage` is the content of the buffer before the body runs. -/
def Server.construct (major minor sectors : Nat) (garbage : Buffer) : Server :=
  _clear ⟨major, minor, sectors, garbage⟩

/-- The function `Server::_check_valid`. -/
def _check_valid (c : Constants) (s : Server) (data : Buffer) : Bool :=
  if eth.destination data ≠ eth.address.Broadcast ∧ eth.destination data ≠ eth.address.Empty
  then false
  else if eth.type data ≠ eth.type.Aoe then false
  else if aoe.version data ≠ c.aoe_version then false
  else if aoe.flag_error data = true then false
  else if aoe.flag_response data = true then false
  else if aoe.error data ≠ 0 then false
  else if aoe.address_major data ≠ s._major ∧ aoe.address_major data ≠ 0xffff then false
  else if aoe.address_minor data ≠ s._minor ∧ aoe.address_minor data ≠ 0xff then false
  else true

/-- The function `Server::_fill_header_eth`. -/
def _fill_header_eth (s : Server) (destination : Nat) : Server :=
  let b := eth.set_destination destination s._buffer
  let b := eth.set_source eth.address.Empty b
  let b := eth.set_type eth.type.Aoe b
  { s with _buffer := b }

/-- The function `Server::_fill_header_aoe`. -/
def _fill_header_aoe (c : Constants) (s : Server) (command tag : Nat) : Server :=
  let b := aoe.set_version c.aoe_version s._buffer
  let b := aoe.set_flag_response true b
  let b := aoe.set_flag_error false b
  let b := aoe.set_error 0 b
  let b := aoe.set_address_major s._major b
  let b := aoe.set_address_minor s._minor b
  let b := aoe.set_command (command % 256) b
  let b := aoe.set_tag (tag % 2 ^ 32) b
  { s with _buffer := b }

/-- The function `Server::_fill_header_aoe_issue`. -/
def _fill_header_aoe_issue (s : Server) (lba : Nat) (ready : Bool) : Server :=
  let b := if ready = true then aoe.issue.set_status_device_ready true s._buffer
           else aoe.issue.set_status_error true s._buffer
  let b := aoe.issue.set_lba (lba % 2 ^ 32) b
  { s with _buffer := b }

/-- The function `Server::_fill_data_aoe_query`. -/
def _fill_data_aoe_query (c : Constants) (s : Server) : Server :=
  let b := aoe.query.set_buffer_count c.buffer_count s._buffer
  let b := aoe.query.set_firmware_version c.firmware_version b
  let b := aoe.query.set_sector_count c.sector_count b
  let b := aoe.query.set_aoe_version c.aoe_version b
  let b := aoe.query.set_command aoe.query.command.Read_config_string b
  let b := aoe.query.set_config_string_length 0 b
  { s with _buffer := b }

/-- The function `Server::_fill_data_aoe_issue_identify`. -/
def _fill_data_aoe_issue_identify (s : Server) : Server :=
  { s with _buffer := aoe.issue.identify.set_logical_sector_number s._sectors s._buffer }

/-- The loop of `Server::_fill_data_aoe_issue_read` from index `i` on, with `n` rounds
left (`n = sector_count - i`). -/
def readLoop {σ : Type} (h : Handlers σ) (lba : Nat) :
    Nat → Nat → Buffer → σ → LoopResult σ
  | 0, _, b, w => ⟨true, b, w, []⟩
  | n + 1, i, b, w =>
    let r := h.read w ((lba + i) % 2 ^ 32)
    let b1 := blit b (i * 512 + 36) r.bytes
    if r.ok = false then ⟨false, b1, r.world, [Call.read (i * 512 + 36) ((lba + i) % 2 ^ 32)]⟩
    else
      let rest := readLoop h lba n (i + 1) b1 r.world
      { rest with calls := Call.read (i * 512 + 36) ((lba + i) % 2 ^ 32) :: rest.calls }

/-- The function `Server::_fill_data_aoe_issue_read`. -/
def _fill_data_aoe_issue_read {σ : Type} (h : Handlers σ) (s : Server) (w : σ)
    (sector_count lba : Nat) : LoopResult σ :=
  readLoop h (lba % 2 ^ 32) (sector_count % 256) 0 s._buffer w

/-- The loop of `Server::_fill_data_aoe_issue_write` from index `i` on, with `n` rounds
left (`n = sector_count - i`). -/
def writeLoop {σ : Type} (h : Handlers σ) (data : Buffer) (lba : Nat) :
    Nat → Nat → σ → Bool × σ × List Call
  | 0, _, w => (true, w, [])
  | n + 1, i, w =>
    let r := h.write w (window data (i * 512 + 36)) ((lba + i) % 2 ^ 32)
    if r.1 = false then
      (false, r.2, [Call.write (window data (i * 512 + 36)) ((lba + i) % 2 ^ 32)])
    else
      let rest := writeLoop h data lba n (i + 1) r.2
      (rest.1, rest.2.1, Call.write (window data (i * 512 + 36)) ((lba + i) % 2 ^ 32) :: rest.2.2)

/-- The function `Server::_fill_data_aoe_issue_write`. -/
def _fill_data_aoe_issue_write {σ : Type} (h : Handlers σ) (w : σ) (data : Buffer)
    (sector_count lba : Nat) : Bool × σ × List Call :=
  writeLoop h data (lba % 2 ^ 32) (sector_count % 256) 0 w

/-- The body of `Server::process` after the validity check and before the final
`_clear()` (lines 30 to 90): the response is composed in the buffer and, where the code
does so, handed to the transmit collaborator. -/
def respond {σ : Type} (c : Constants) (h : Handlers σ) (s : Server) (data : Buffer)
    (w : σ) : Outcome σ :=
  let s := _fill_header_eth s (eth.source data)
  let s := _fill_header_aoe c s (aoe.command data) (aoe.tag data)
  if aoe.command data = aoe.command.Query_config_information then
    let s := _fill_data_aoe_query c s
    let t := h.transmitt w s._buffer 32 c.timeout
    ⟨s, t.2, [Call.transmitt s._buffer 32 c.timeout]⟩
  else if aoe.command data = aoe.command.Issue_ata_command then
    if aoe.issue.command data = aoe.issue.command.Identify_Device then
      let s := _fill_data_aoe_issue_identify s
      let s := _fill_header_aoe_issue s (aoe.issue.lba data) true
      let t := h.transmitt w s._buffer (512 + 36) c.timeout
      ⟨s, t.2, [Call.transmitt s._buffer (512 + 36) c.timeout]⟩
    else if aoe.issue.command data = aoe.issue.command.Read_sectors_with_retry then
      let sector_count := aoe.issue.sector_count data % 256
      let lba := (aoe.issue.lba data % 2 ^ 32) &&& 0x00ffffff
      let r := _fill_data_aoe_issue_read h s w sector_count lba
      let s := _fill_header_aoe_issue { s with _buffer := r.buffer } (aoe.issue.lba data) r.result
      if r.result = false then ⟨s, r.world, r.calls⟩
      else
        let t := h.transmitt r.world s._buffer (36 + 512 * sector_count) c.timeout
        ⟨s, t.2, r.calls ++ [Call.transmitt s._buffer (36 + 512 * sector_count) c.timeout]⟩
    else if aoe.issue.command data = aoe.issue.command.Write_sectors_with_retry then
      let sector_count := aoe.issue.sector_count data % 256
      let lba := (aoe.issue.lba data % 2 ^ 32) &&& 0x00ffffff
      let r := _fill_data_aoe_issue_write h w data sector_count lba
      let s := _fill_header_aoe_issue s (aoe.issue.lba data) r.1
      if r.1 = false then ⟨s, r.2.1, r.2.2⟩
      else
        let t := h.transmitt r.2.1 s._buffer 36 c.timeout
        ⟨s, t.2, r.2.2 ++ [Call.transmitt s._buffer 36 c.timeout]⟩
    else ⟨s, w, []⟩
  else ⟨s, w, []⟩

/-- The function `Server::process`: a frame that fails `_check_valid` returns at once;
any other is answered by `respond` and the buffer is cleared. -/
def process {σ : Type} (c : Constants) (h : Handlers σ) (s : Server) (data : Buffer)
    (w : σ) : Outcome σ :=
  if _check_valid c s data = false then ⟨s, w, []⟩
  else
    let r := respond c h s data w
    ⟨_clear r.server, r.world, r.calls⟩

/-- The function `Server::init`. -/
def init (c : Constants) (s : Server) : Server :=
  let s := _fill_header_eth s eth.address.Broadcast
  let s := _fill_header_aoe c s aoe.command.Query_config_information 0
  let s := _fill_data_aoe_query c s
  _clear s

/-- The frame that `Server::init` has composed in the buffer when it reaches its
`_clear()`. -/
def init_composed (c : Constants) (s : Server) : Buffer :=
  let s := _fill_header_eth s eth.address.Broadcast
  let s := _fill_header_aoe c s aoe.command.Query_config_information 0
  let s := _fill_data_aoe_query c s
  s._buffer

end stack

/-! ## The collaborators along a run -/

namespace stack

/-- The state after the two header fills that open the response (lines 30 and 31). -/
def seeded (c : Constants) (s : Server) (data : Buffer) : Server :=
  _fill_header_aoe c (_fill_header_eth s (eth.source data)) (aoe.command data) (aoe.tag data)

/-- The world in which the read collaborator receives its `i`-th call (counting from 0)
when it is called for the addresses `lba`, `lba + 1`, ... in turn, starting in `w`. -/
def readWorld {σ : Type} (h : Handlers σ) (lba : Nat) (w : σ) : Nat → σ
  | 0 => w
  | i + 1 => (h.read (readWorld h lba w i) (lba + i)).world

/-- The answer of the read collaborator to that `i`-th call. -/
def readAnswer {σ : Type} (h : Handlers σ) (lba : Nat) (w : σ) (i : Nat) : ReadResult σ :=
  h.read (readWorld h lba w i) (lba + i)

/-- The world in which the write collaborator receives its `i`-th call (counting from 0)
when it is handed the sectors of `data` for the addresses `lba`, `lba + 1`, ... in turn,
starting in `w`. -/
def writeWorld {σ : Type} (h : Handlers σ) (data : Buffer) (lba : Nat) (w : σ) : Nat → σ
  | 0 => w
  | i + 1 => (h.write (writeWorld h data lba w i) (window data (i * 512 + 36)) (lba + i)).2

/-- The boolean result of the write collaborator for that `i`-th call. -/
def writeAnswer {σ : Type} (h : Handlers σ) (data : Buffer) (lba : Nat) (w : σ) (i : Nat) :
    Bool :=
  (h.write (writeWorld h data lba w i) (window data (i * 512 + 36)) (lba + i)).1

/-- The sector loop of a read request as `process` runs it: `sector_count` rounds from
index 0 at the masked address of the request, on the seeded buffer. -/
def readRun {σ : Type} (c : Constants) (h : Handlers σ) (s : Server) (data : Buffer) (w : σ) :
    LoopResult σ :=
  readLoop h (aoe.issue.lba data &&& 0x00ffffff) (aoe.issue.sector_count data) 0
    (seeded c s data)._buffer w

/-- The server after the sector loop of a read request and the issue header fill that
follows it (line 62). -/
def readDone {σ : Type} (c : Constants) (h : Handlers σ) (s : Server) (data : Buffer) (w : σ) :
    Server :=
  _fill_header_aoe_issue { seeded c s data with _buffer := (readRun c h s data w).buffer }
    (aoe.issue.lba data) (readRun c h s data w).result

/-- The sector loop of a write request as `process` runs it: `sector_count` rounds from
index 0 at the masked address of the request. -/
def writeRun {σ : Type} (h : Handlers σ) (data : Buffer) (w : σ) : Bool × σ × List Call :=
  writeLoop h data (aoe.issue.lba data &&& 0x00ffffff) (aoe.issue.sector_count data) 0 w

/-- The server after the sector loop of a write request and the issue header fill that
follows it (line 75). -/
def writeDone {σ : Type} (c : Constants) (h : Handlers σ) (s : Server) (data : Buffer)
    (w : σ) : Server :=
  _fill_header_aoe_issue (seeded c s data) (aoe.issue.lba data) (writeRun h data w).1

end stack

/-! ## Sequences of calls -/

namespace stack

/-- The function `Server::init` as a transaction: it calls no collaborator, so the world
is left as it was and the list of calls is empty. -/
def initialise {σ : Type} (c : Constants) (s : Server) (w : σ) : Outcome σ :=
  ⟨init c s, w, []⟩

/-- One call of a public member function of a constructed server. -/
inductive Op where
  /-- The call `init()`. -/
  | init
  /-- The call `process(data)`. -/
  | process (data : Buffer)

/-- The server and the world after one call. -/
def step {σ : Type} (c : Constants) (h : Handlers σ) (s : Server) (w : σ) : Op → Server × σ
  | .init => ((initialise c s w).server, (initialise c s w).world)
  | .process data => ((process c h s data w).server, (process c h s data w).world)

/-- The server and the world after a sequence of calls, oldest first. -/
def run {σ : Type} (c : Constants) (h : Handlers σ) : Server → σ → List Op → Server × σ
  | s, w, [] => (s, w)
  | s, w, op :: ops => run c h (step c h s w op).1 (step c h s w op).2 ops

/-- A sector store: the 512 bytes kept at each address. -/
abbrev Store := Nat → Nat → Nat

/-- Collaborators backed by one sector store: a write stores the sector at its address and
succeeds, a read yields the sector kept at its address and succeeds, a transmit succeeds
and leaves the store alone. -/
def storeHandlers : Handlers Store :=
  { transmitt := fun st _ _ _ => (true, st)
    read := fun st lba => ⟨st lba, true, st⟩
    write := fun st payload lba => (true, fun a => if a = lba then payload else st a) }

end stack

/-! ## Sample inputs -/

namespace sample

open stack

/-- Sample constants: AoE version 1, 16 buffers, firmware 0x4001, 2 sectors a frame. -/
def consts : Constants := ⟨1, 16, 0x4001, 2, 1000⟩

/-- A server with major 7, minor 3 and 1,000,000 sectors, as constructed. -/
def server : Server := Server.construct 7 3 1000000 (fun _ => 0xaa)

/-- Collaborators without a world: transmit succeeds, every read succeeds and yields the
sector whose bytes all equal the low byte of its address, every write succeeds. -/
def handlers : Handlers Unit :=
  { transmitt := fun _ _ _ _ => (true, ())
    read := fun _ lba => ⟨fun _ => lba % 256, true, ()⟩
    write := fun _ _ _ => (true, ()) }

/-- The Ethernet and AoE headers of a request from 02:00:00:00:00:01 to the broadcast
address, for the wildcard major and minor, with tag 0xdeadbeef and the given command. -/
def header (command : Nat) : List Nat :=
  [0xff, 0xff, 0xff, 0xff, 0xff, 0xff, 0x02, 0x00, 0x00, 0x00, 0x00, 0x01, 0x88, 0xa2,
   0x10, 0x00, 0xff, 0xff, 0xff, command, 0xde, 0xad, 0xbe, 0xef]

/-- The discovery request: a config query for the wildcard major and minor. -/
def discovery : Buffer := frameOf (header 1)

/-- The frame with which the sample server answers the discovery request. -/
def discoveryAnswer : Buffer :=
  (_fill_data_aoe_query consts (seeded consts server discovery))._buffer

/-- An Identify-Device request: the header with command 0 (ATA) and the ATA opcode 0xec. -/
def identify : Buffer :=
  frameOf (header 0 ++ [0x00, 0x00, 0x01, 0xec, 0x00, 0x00, 0x00, 0x00, 0x00, 0x00, 0x00, 0x00])

/-- A Read-Sectors-With-Retry request for 4 sectors from address 100. -/
def readRequest : Buffer :=
  frameOf (header 0 ++ [0x00, 0x00, 0x04, 0x20, 0x64, 0x00, 0x00, 0x00, 0x00, 0x00, 0x00, 0x00])

/-- A Write-Sectors-With-Retry request for 2 sectors to address 100; the first sector holds
the byte 0x11 throughout and the second the byte 0x22. -/
def writeRequest : Buffer :=
  frameOf (header 0 ++ [0x00, 0x00, 0x02, 0x30, 0x64, 0x00, 0x00, 0x00, 0x00, 0x00, 0x00, 0x00]
    ++ List.replicate 512 0x11 ++ List.replicate 512 0x22)

/-- Collaborators whose world counts the reads and writes made so far: a read or a write
succeeds unless `m` calls came before it. -/
def failing (m : Nat) : Handlers Nat :=
  { transmitt := fun n _ _ _ => (true, n)
    read := fun n lba => ⟨fun _ => lba % 256, n != m, n + 1⟩
    write := fun n _ _ => (n != m, n + 1) }

/-- A request whose AoE command, 2, is neither a config query nor an ATA command. -/
def unknownCommand : Buffer := frameOf (header 2)

/-- An ATA request whose opcode, 0xca, is none of identify, read and write. -/
def unknownIssue : Buffer :=
  frameOf (header 0 ++ [0x00, 0x00, 0x01, 0xca, 0x00, 0x00, 0x00, 0x00, 0x00, 0x00, 0x00, 0x00])

/-- A Read-Sectors-With-Retry request for 2 sectors from address 100. -/
def readBack : Buffer :=
  frameOf (header 0 ++ [0x00, 0x00, 0x02, 0x20, 0x64, 0x00, 0x00, 0x00, 0x00, 0x00, 0x00, 0x00])

/-- A request with the given ATA opcode for 255 sectors at address 100, whose payload byte
at offset `i` is `i % 251`. -/
def bulk (opcode : Nat) : Buffer :=
  fun i =>
    if i < 36 then
      (header 0 ++ [0x00, 0x00, 0xff, opcode, 0x64, 0x00, 0x00, 0x00, 0x00, 0x00, 0x00, 0x00]).getD i 0
    else i % 251

/-- An empty sector store. -/
def emptyStore : Store := fun _ _ => 0

/-- A frame that is not AoE: the discovery request with ethertype 0x0800. -/
def foreign : Buffer :=
  frameOf [0xff, 0xff, 0xff, 0xff, 0xff, 0xff, 0x02, 0x00, 0x00, 0x00, 0x00, 0x01, 0x08, 0x00,
   0x10, 0x00, 0xff, 0xff, 0xff, 0x01, 0xde, 0xad, 0xbe, 0xef]

end sample

/-! ## Facts about the byte memory -/

theorem setByte_same (b : Buffer) (i v : Nat) : setByte b i v i = v % 256 := by
  simp [setByte]

theorem setByte_other (b : Buffer) (i v j : Nat) (h : j ≠ i) : setByte b i v j = b j := by
  simp [setByte, h]

theorem getByte_lt (b : Buffer) (i : Nat) : getByte b i < 256 :=
  Nat.mod_lt _ (by decide)

theorem setBytes_other (ps : List Nat) (v : Nat) (b : Buffer) (j : Nat) (h : j ∉ ps) :
    setBytes ps v b j = b j := by
  induction ps generalizing b with
  | nil => rfl
  | cons p ps ih =>
    have hj : j ≠ p := fun e => h (e ▸ List.mem_cons_self _ _)
    have hjs : j ∉ ps := fun e => h (List.mem_cons_of_mem _ e)
    rw [setBytes, ih _ hjs, setByte_other _ _ _ _ hj]

theorem getBytes_congr (ps : List Nat) (b b' : Buffer) (h : ∀ p ∈ ps, b p = b' p) :
    getBytes ps b = getBytes ps b' := by
  induction ps with
  | nil => rfl
  | cons p ps ih =>
    have h1 : b p = b' p := h p (List.mem_cons_self _ _)
    have h2 : getBytes ps b = getBytes ps b' :=
      ih (fun q hq => h q (List.mem_cons_of_mem _ hq))
    simp only [getBytes, getByte, h1, h2]

theorem getBytes_lt (ps : List Nat) (b : Buffer) : getBytes ps b < 256 ^ ps.length := by
  induction ps with
  | nil => simp [getBytes]
  | cons p ps ih =>
    have h1 := getByte_lt b p
    simp only [getBytes, List.length_cons, pow_succ]
    nlinarith

theorem getBytes_setBytes_same (ps : List Nat) (v : Nat) (b : Buffer) (h : ps.Nodup) :
    getBytes ps (setBytes ps v b) = v % 256 ^ ps.length := by
  induction ps generalizing b with
  | nil => simp [getBytes, Nat.mod_one]
  | cons p ps ih =>
    have hp : p ∉ ps := (List.nodup_cons.mp h).1
    have hs : ps.Nodup := (List.nodup_cons.mp h).2
    have e1 : getByte (setBytes ps v (setByte b p (v / 256 ^ ps.length))) p
        = v / 256 ^ ps.length % 256 := by
      rw [getByte, setBytes_other _ _ _ _ hp, setByte_same, Nat.mod_mod]
    rw [setBytes, getBytes, e1, ih _ hs, List.length_cons, pow_succ, Nat.mod_mul,
      Nat.mul_comm, Nat.add_comm]

theorem getBytes_setBytes_other (ps qs : List Nat) (v : Nat) (b : Buffer)
    (h : ∀ p ∈ ps, p ∉ qs) : getBytes ps (setBytes qs v b) = getBytes ps b :=
  getBytes_congr ps _ _ (fun p hp => setBytes_other qs v b p (h p hp))

theorem setBits_other (p u m v : Nat) (b : Buffer) (j : Nat) (h : j ≠ p) :
    setBits p u m v b j = b j := by
  simp [setBits, setByte, h]

theorem getByte_setBits_same (p u m v : Nat) (b : Buffer) :
    getByte (setBits p u m v b) p
      = (getByte b p - getByte b p / u % m * u + v % m * u) % 256 := by
  simp [setBits, getBits, getByte, setByte]

theorem getBytes_setBits_other (ps : List Nat) (p u m v : Nat) (b : Buffer) (h : p ∉ ps) :
    getBytes ps (setBits p u m v b) = getBytes ps b :=
  getBytes_congr ps _ _ (fun q hq => setBits_other p u m v b q (fun e => h (e ▸ hq)))

theorem getBits_congr (p u m : Nat) (b b' : Buffer) (h : b p = b' p) :
    getBits p u m b = getBits p u m b' := by
  simp [getBits, getByte, h]

theorem blit_inside (b : Buffer) (off : Nat) (block : Nat → Nat) (j : Nat) (h : j < 512) :
    blit b off block (off + j) = block j := by
  simp [blit, h]

theorem blit_outside (b : Buffer) (off : Nat) (block : Nat → Nat) (j : Nat)
    (h : j < off ∨ off + 512 ≤ j) : blit b off block j = b j := by
  have : ¬ (off ≤ j ∧ j < off + 512) := by omega
  simp [blit, this]

/-! ## Footprints of the fill functions -/

section footprints

open stack

theorem getBits_setBytes_other (p u m : Nat) (qs : List Nat) (v : Nat) (b : Buffer)
    (h : p ∉ qs) : getBits p u m (setBytes qs v b) = getBits p u m b :=
  getBits_congr p u m _ _ (setBytes_other qs v b p h)

theorem getBits_setBits_other (p u m q u' m' v : Nat) (b : Buffer) (h : p ≠ q) :
    getBits p u m (setBits q u' m' v b) = getBits p u m b :=
  getBits_congr p u m _ _ (setBits_other q u' m' v b p h)

theorem fill_header_eth_other (s : Server) (d j : Nat) (h : 14 ≤ j) :
    (_fill_header_eth s d)._buffer j = s._buffer j := by
  simp only [_fill_header_eth, eth.set_destination, eth.set_source, eth.set_type]
  repeat rw [setBytes_other _ _ _ _ (by
    simp only [List.mem_cons, List.mem_singleton, List.not_mem_nil, or_false]; omega)]

theorem fill_header_aoe_other (c : Constants) (s : Server) (cmd tag j : Nat)
    (h : j < 14 ∨ 24 ≤ j) : (_fill_header_aoe c s cmd tag)._buffer j = s._buffer j := by
  simp only [_fill_header_aoe, aoe.set_version, aoe.set_flag_response, aoe.set_flag_error,
    aoe.set_error, aoe.set_address_major, aoe.set_address_minor, aoe.set_command, aoe.set_tag]
  repeat rw [setBytes_other _ _ _ _ (by
    simp only [List.mem_cons, List.mem_singleton, List.not_mem_nil, or_false]; omega)]
  repeat rw [setBits_other _ _ _ _ _ _ (by omega)]

theorem fill_data_aoe_query_other (c : Constants) (s : Server) (j : Nat)
    (h : j < 24 ∨ 31 ≤ j) : (_fill_data_aoe_query c s)._buffer j = s._buffer j := by
  simp only [_fill_data_aoe_query, aoe.query.set_buffer_count, aoe.query.set_firmware_version,
    aoe.query.set_sector_count, aoe.query.set_aoe_version, aoe.query.set_command,
    aoe.query.set_config_string_length]
  repeat first
    | rw [setBytes_other _ _ _ _ (by
        simp only [List.mem_cons, List.mem_singleton, List.not_mem_nil, or_false]; omega)]
    | rw [setBits_other _ _ _ _ _ _ (by omega)]

theorem fill_data_aoe_issue_identify_other (s : Server) (j : Nat) (h : j < 236 ∨ 244 ≤ j) :
    (_fill_data_aoe_issue_identify s)._buffer j = s._buffer j := by
  simp only [_fill_data_aoe_issue_identify, aoe.issue.identify.set_logical_sector_number]
  rw [setBytes_other _ _ _ _ (by
    simp only [List.mem_cons, List.mem_singleton, List.not_mem_nil, or_false]; omega)]

theorem fill_header_aoe_issue_other (s : Server) (lba : Nat) (ready : Bool) (j : Nat)
    (h : j < 27 ∨ 34 ≤ j) : (_fill_header_aoe_issue s lba ready)._buffer j = s._buffer j := by
  simp only [_fill_header_aoe_issue, aoe.issue.set_lba, aoe.issue.set_status_device_ready,
    aoe.issue.set_status_error]
  rw [setBytes_other _ _ _ _ (by
    simp only [List.mem_cons, List.mem_singleton, List.not_mem_nil, or_false]; omega)]
  split <;> rw [setBits_other _ _ _ _ _ _ (by omega)]

end footprints

/-! ## The sector loops -/

namespace stack

theorem readLoop_succ_ok {σ : Type} (h : Handlers σ) (lba n i : Nat) (b : Buffer) (w : σ)
    (hok : (h.read w ((lba + i) % 2 ^ 32)).ok = true) :
    readLoop h lba (n + 1) i b w
      = { readLoop h lba n (i + 1) (blit b (i * 512 + 36) (h.read w ((lba + i) % 2 ^ 32)).bytes)
            (h.read w ((lba + i) % 2 ^ 32)).world with
          calls := Call.read (i * 512 + 36) ((lba + i) % 2 ^ 32) ::
            (readLoop h lba n (i + 1)
              (blit b (i * 512 + 36) (h.read w ((lba + i) % 2 ^ 32)).bytes)
              (h.read w ((lba + i) % 2 ^ 32)).world).calls } := by
  simp only [readLoop, hok, Bool.true_eq_false, if_false, if_true]

theorem readLoop_succ_fail {σ : Type} (h : Handlers σ) (lba n i : Nat) (b : Buffer) (w : σ)
    (hok : (h.read w ((lba + i) % 2 ^ 32)).ok = false) :
    readLoop h lba (n + 1) i b w
      = ⟨false, blit b (i * 512 + 36) (h.read w ((lba + i) % 2 ^ 32)).bytes,
          (h.read w ((lba + i) % 2 ^ 32)).world,
          [Call.read (i * 512 + 36) ((lba + i) % 2 ^ 32)]⟩ := by
  simp only [readLoop, hok, Bool.true_eq_false, if_false, if_true]

theorem readLoop_ok {σ : Type} (h : Handlers σ) (lba : Nat) (w : σ) :
    ∀ (n i : Nat) (b : Buffer), lba + i + n ≤ 2 ^ 32 →
      (∀ k, i ≤ k → k < i + n → (readAnswer h lba w k).ok = true) →
      (readLoop h lba n i b (readWorld h lba w i)).result = true ∧
      (readLoop h lba n i b (readWorld h lba w i)).world = readWorld h lba w (i + n) ∧
      (readLoop h lba n i b (readWorld h lba w i)).calls
        = (List.range' i n).map (fun k => Call.read (k * 512 + 36) (lba + k)) ∧
      (∀ p, p < i * 512 + 36 ∨ (i + n) * 512 + 36 ≤ p →
        (readLoop h lba n i b (readWorld h lba w i)).buffer p = b p) ∧
      (∀ k j, i ≤ k → k < i + n → j < 512 →
        (readLoop h lba n i b (readWorld h lba w i)).buffer (k * 512 + 36 + j)
          = (readAnswer h lba w k).bytes j) := by
  intro n
  induction n with
  | zero =>
    intro i b _ _
    refine ⟨rfl, rfl, rfl, fun p _ => rfl, ?_⟩
    intro k j h1 h2
    omega
  | succ n ih =>
    intro i b hb hok
    have hmod : (lba + i) % 2 ^ 32 = lba + i := Nat.mod_eq_of_lt (by omega)
    have hi : (readAnswer h lba w i).ok = true := hok i (Nat.le_refl _) (by omega)
    have hw : (readAnswer h lba w i).world = readWorld h lba w (i + 1) := rfl
    obtain ⟨r1, r2, r3, r4, r5⟩ := ih (i + 1) (blit b (i * 512 + 36) (readAnswer h lba w i).bytes)
      (by omega) (fun k hk1 hk2 => hok k (by omega) (by omega))
    have hstep := readLoop_succ_ok h lba n i b (readWorld h lba w i) (by rw [hmod]; exact hi)
    rw [hmod] at hstep
    change readLoop h lba (n + 1) i b (readWorld h lba w i)
        = { readLoop h lba n (i + 1) (blit b (i * 512 + 36) (readAnswer h lba w i).bytes)
              (readWorld h lba w (i + 1)) with
            calls := Call.read (i * 512 + 36) (lba + i) ::
              (readLoop h lba n (i + 1) (blit b (i * 512 + 36) (readAnswer h lba w i).bytes)
                (readWorld h lba w (i + 1))).calls } at hstep
    rw [hstep]
    refine ⟨r1, ?_, ?_, ?_, ?_⟩
    · simp only [r2]
      congr 1
      omega
    · simp only [r3, List.range'_succ, List.map_cons]
    · intro p hp
      simp only
      rw [r4 p (by omega), blit_outside _ _ _ _ (by omega)]
    · intro k j hk1 hk2 hj
      simp only
      rcases Nat.eq_or_lt_of_le hk1 with e | e
      · subst e
        rw [r4 _ (by omega), blit_inside _ _ _ _ hj]
      · exact r5 k j (by omega) (by omega) hj

theorem readLoop_fail {σ : Type} (h : Handlers σ) (lba : Nat) (w : σ) (k : Nat)
    (hbad : (readAnswer h lba w k).ok = false) :
    ∀ (n i : Nat) (b : Buffer), lba + i + n ≤ 2 ^ 32 → i ≤ k → k < i + n →
      (∀ j, i ≤ j → j < k → (readAnswer h lba w j).ok = true) →
      (readLoop h lba n i b (readWorld h lba w i)).result = false ∧
      (readLoop h lba n i b (readWorld h lba w i)).world = readWorld h lba w (k + 1) ∧
      (readLoop h lba n i b (readWorld h lba w i)).calls
        = (List.range' i (k + 1 - i)).map (fun j => Call.read (j * 512 + 36) (lba + j)) ∧
      (∀ p, p < i * 512 + 36 ∨ (k + 1) * 512 + 36 ≤ p →
        (readLoop h lba n i b (readWorld h lba w i)).buffer p = b p) := by
  intro n
  induction n with
  | zero =>
    intro i b _ h1 h2
    omega
  | succ n ih =>
    intro i b hb h1 h2 hok
    have hmod : (lba + i) % 2 ^ 32 = lba + i := Nat.mod_eq_of_lt (by omega)
    rcases Nat.eq_or_lt_of_le h1 with e | e
    · subst e
      have hstep := readLoop_succ_fail h lba n i b (readWorld h lba w i)
        (by rw [hmod]; exact hbad)
      rw [hmod] at hstep
      rw [hstep]
      have hlen : i + 1 - i = 1 := by omega
      refine ⟨rfl, rfl, ?_, ?_⟩
      · rw [hlen]
        rfl
      · intro p hp
        exact blit_outside _ _ _ _ (by omega)
    · have hi : (readAnswer h lba w i).ok = true := hok i (Nat.le_refl _) e
      obtain ⟨r1, r2, r3, r4⟩ :=
        ih (i + 1) (blit b (i * 512 + 36) (readAnswer h lba w i).bytes)
          (by omega) (by omega) (by omega) (fun j hj1 hj2 => hok j (by omega) hj2)
      have hstep := readLoop_succ_ok h lba n i b (readWorld h lba w i) (by rw [hmod]; exact hi)
      rw [hmod] at hstep
      change readLoop h lba (n + 1) i b (readWorld h lba w i)
          = { readLoop h lba n (i + 1) (blit b (i * 512 + 36) (readAnswer h lba w i).bytes)
                (readWorld h lba w (i + 1)) with
              calls := Call.read (i * 512 + 36) (lba + i) ::
                (readLoop h lba n (i + 1) (blit b (i * 512 + 36) (readAnswer h lba w i).bytes)
                  (readWorld h lba w (i + 1))).calls } at hstep
      rw [hstep]
      have hlen : k + 1 - i = (k + 1 - (i + 1)) + 1 := by omega
      refine ⟨r1, r2, ?_, ?_⟩
      · simp only [r3, hlen, List.range'_succ, List.map_cons]
      · intro p hp
        simp only
        rw [r4 p (by omega), blit_outside _ _ _ _ (by omega)]

theorem writeLoop_succ_ok {σ : Type} (h : Handlers σ) (data : Buffer) (lba n i : Nat) (w : σ)
    (hok : (h.write w (window data (i * 512 + 36)) ((lba + i) % 2 ^ 32)).1 = true) :
    writeLoop h data lba (n + 1) i w
      = ((writeLoop h data lba n (i + 1)
            (h.write w (window data (i * 512 + 36)) ((lba + i) % 2 ^ 32)).2).1,
         (writeLoop h data lba n (i + 1)
            (h.write w (window data (i * 512 + 36)) ((lba + i) % 2 ^ 32)).2).2.1,
         Call.write (window data (i * 512 + 36)) ((lba + i) % 2 ^ 32) ::
           (writeLoop h data lba n (i + 1)
              (h.write w (window data (i * 512 + 36)) ((lba + i) % 2 ^ 32)).2).2.2) := by
  simp only [writeLoop, hok, Bool.true_eq_false, if_false, if_true]

theorem writeLoop_succ_fail {σ : Type} (h : Handlers σ) (data : Buffer) (lba n i : Nat) (w : σ)
    (hok : (h.write w (window data (i * 512 + 36)) ((lba + i) % 2 ^ 32)).1 = false) :
    writeLoop h data lba (n + 1) i w
      = (false, (h.write w (window data (i * 512 + 36)) ((lba + i) % 2 ^ 32)).2,
          [Call.write (window data (i * 512 + 36)) ((lba + i) % 2 ^ 32)]) := by
  simp only [writeLoop, hok, Bool.true_eq_false, if_false, if_true]

theorem writeLoop_ok {σ : Type} (h : Handlers σ) (data : Buffer) (lba : Nat) (w : σ) :
    ∀ (n i : Nat), lba + i + n ≤ 2 ^ 32 →
      (∀ k, i ≤ k → k < i + n → writeAnswer h data lba w k = true) →
      (writeLoop h data lba n i (writeWorld h data lba w i)).1 = true ∧
      (writeLoop h data lba n i (writeWorld h data lba w i)).2.1
        = writeWorld h data lba w (i + n) ∧
      (writeLoop h data lba n i (writeWorld h data lba w i)).2.2
        = (List.range' i n).map
            (fun k => Call.write (window data (k * 512 + 36)) (lba + k)) := by
  intro n
  induction n with
  | zero =>
    intro i _ _
    exact ⟨rfl, rfl, rfl⟩
  | succ n ih =>
    intro i hb hok
    have hmod : (lba + i) % 2 ^ 32 = lba + i := Nat.mod_eq_of_lt (by omega)
    have hi : writeAnswer h data lba w i = true := hok i (Nat.le_refl _) (by omega)
    obtain ⟨r1, r2, r3⟩ := ih (i + 1) (by omega) (fun k hk1 hk2 => hok k (by omega) (by omega))
    have hstep := writeLoop_succ_ok h data lba n i (writeWorld h data lba w i)
      (by rw [hmod]; exact hi)
    rw [hmod] at hstep
    change writeLoop h data lba (n + 1) i (writeWorld h data lba w i)
        = ((writeLoop h data lba n (i + 1) (writeWorld h data lba w (i + 1))).1,
           (writeLoop h data lba n (i + 1) (writeWorld h data lba w (i + 1))).2.1,
           Call.write (window data (i * 512 + 36)) (lba + i) ::
             (writeLoop h data lba n (i + 1) (writeWorld h data lba w (i + 1))).2.2) at hstep
    rw [hstep]
    refine ⟨r1, ?_, ?_⟩
    · simp only [r2]
      congr 1
      omega
    · simp only [r3, List.range'_succ, List.map_cons]

theorem writeLoop_fail {σ : Type} (h : Handlers σ) (data : Buffer) (lba : Nat) (w : σ)
    (k : Nat) (hbad : writeAnswer h data lba w k = false) :
    ∀ (n i : Nat), lba + i + n ≤ 2 ^ 32 → i ≤ k → k < i + n →
      (∀ j, i ≤ j → j < k → writeAnswer h data lba w j = true) →
      (writeLoop h data lba n i (writeWorld h data lba w i)).1 = false ∧
      (writeLoop h data lba n i (writeWorld h data lba w i)).2.1
        = writeWorld h data lba w (k + 1) ∧
      (writeLoop h data lba n i (writeWorld h data lba w i)).2.2
        = (List.range' i (k + 1 - i)).map
            (fun j => Call.write (window data (j * 512 + 36)) (lba + j)) := by
  intro n
  induction n with
  | zero =>
    intro i _ h1 h2
    omega
  | succ n ih =>
    intro i hb h1 h2 hok
    have hmod : (lba + i) % 2 ^ 32 = lba + i := Nat.mod_eq_of_lt (by omega)
    rcases Nat.eq_or_lt_of_le h1 with e | e
    · subst e
      have hstep := writeLoop_succ_fail h data lba n i (writeWorld h data lba w i)
        (by rw [hmod]; exact hbad)
      rw [hmod] at hstep
      rw [hstep]
      have hlen : i + 1 - i = 1 := by omega
      refine ⟨rfl, rfl, ?_⟩
      rw [hlen]
      rfl
    · have hi : writeAnswer h data lba w i = true := hok i (Nat.le_refl _) e
      obtain ⟨r1, r2, r3⟩ :=
        ih (i + 1) (by omega) (by omega) (by omega) (fun j hj1 hj2 => hok j (by omega) hj2)
      have hstep := writeLoop_succ_ok h data lba n i (writeWorld h data lba w i)
        (by rw [hmod]; exact hi)
      rw [hmod] at hstep
      change writeLoop h data lba (n + 1) i (writeWorld h data lba w i)
          = ((writeLoop h data lba n (i + 1) (writeWorld h data lba w (i + 1))).1,
             (writeLoop h data lba n (i + 1) (writeWorld h data lba w (i + 1))).2.1,
             Call.write (window data (i * 512 + 36)) (lba + i) ::
               (writeLoop h data lba n (i + 1) (writeWorld h data lba w (i + 1))).2.2) at hstep
      rw [hstep]
      have hlen : k + 1 - i = (k + 1 - (i + 1)) + 1 := by omega
      refine ⟨r1, r2, ?_⟩
      simp only [r3, hlen, List.range'_succ, List.map_cons]


theorem land_mask (x : Nat) : x &&& 0x00ffffff = x % 2 ^ 24 :=
  Nat.and_pow_two_sub_one_eq_mod x 24

theorem land_mask_lt (x : Nat) : x &&& 0x00ffffff < 2 ^ 24 := by
  rw [land_mask]
  exact Nat.mod_lt _ (by decide)

theorem land_mask_mod (x : Nat) : (x % 2 ^ 32) &&& 0x00ffffff = x &&& 0x00ffffff := by
  rw [land_mask, land_mask]
  omega

theorem readLoop_low {σ : Type} (h : Handlers σ) (lba : Nat) :
    ∀ (n i : Nat) (b : Buffer) (w : σ) (p : Nat), p < i * 512 + 36 →
      (readLoop h lba n i b w).buffer p = b p := by
  intro n
  induction n with
  | zero =>
    intro i b w p _
    rfl
  | succ n ih =>
    intro i b w p hp
    cases hok : (h.read w ((lba + i) % 2 ^ 32)).ok with
    | false =>
      rw [readLoop_succ_fail h lba n i b w hok]
      exact blit_outside _ _ _ _ (Or.inl hp)
    | true =>
      rw [readLoop_succ_ok h lba n i b w hok]
      simp only
      rw [ih (i + 1) _ _ p (by omega), blit_outside _ _ _ _ (Or.inl hp)]

theorem readLoop_calls {σ : Type} (h : Handlers σ) (lba : Nat) :
    ∀ (n i : Nat) (b : Buffer) (w : σ), ∀ call ∈ (readLoop h lba n i b w).calls,
      call.isTransmitt = false := by
  intro n
  induction n with
  | zero =>
    intro i b w call hc
    simp [readLoop] at hc
  | succ n ih =>
    intro i b w call hc
    cases hok : (h.read w ((lba + i) % 2 ^ 32)).ok with
    | false =>
      rw [readLoop_succ_fail h lba n i b w hok] at hc
      simp only [List.mem_singleton] at hc
      rw [hc]
      rfl
    | true =>
      rw [readLoop_succ_ok h lba n i b w hok] at hc
      simp only [List.mem_cons] at hc
      rcases hc with e | e
      · rw [e]
        rfl
      · exact ih _ _ _ call e

theorem writeLoop_calls {σ : Type} (h : Handlers σ) (data : Buffer) (lba : Nat) :
    ∀ (n i : Nat) (w : σ), ∀ call ∈ (writeLoop h data lba n i w).2.2,
      call.isTransmitt = false := by
  intro n
  induction n with
  | zero =>
    intro i w call hc
    simp [writeLoop] at hc
  | succ n ih =>
    intro i w call hc
    cases hok : (h.write w (window data (i * 512 + 36)) ((lba + i) % 2 ^ 32)).1 with
    | false =>
      rw [writeLoop_succ_fail h data lba n i w hok] at hc
      simp only [List.mem_singleton] at hc
      rw [hc]
      rfl
    | true =>
      rw [writeLoop_succ_ok h data lba n i w hok] at hc
      simp only [List.mem_cons] at hc
      rcases hc with e | e
      · rw [e]
        rfl
      · exact ih _ _ call e

end stack

/-! ## The branches of `respond` -/

namespace stack

theorem respond_query {σ : Type} (c : Constants) (h : Handlers σ) (s : Server) (data : Buffer)
    (w : σ) (hq : aoe.command data = aoe.command.Query_config_information) :
    respond c h s data w
      = ⟨_fill_data_aoe_query c (seeded c s data),
          (h.transmitt w (_fill_data_aoe_query c (seeded c s data))._buffer 32 c.timeout).2,
          [Call.transmitt (_fill_data_aoe_query c (seeded c s data))._buffer 32 c.timeout]⟩ := by
  simp only [respond, seeded, hq, if_true]

theorem issue_ne_query : aoe.command.Issue_ata_command ≠ aoe.command.Query_config_information := by
  decide

theorem respond_identify {σ : Type} (c : Constants) (h : Handlers σ) (s : Server)
    (data : Buffer) (w : σ) (hi : aoe.command data = aoe.command.Issue_ata_command)
    (hid : aoe.issue.command data = aoe.issue.command.Identify_Device) :
    respond c h s data w
      = ⟨_fill_header_aoe_issue (_fill_data_aoe_issue_identify (seeded c s data))
            (aoe.issue.lba data) true,
          (h.transmitt w (_fill_header_aoe_issue (_fill_data_aoe_issue_identify (seeded c s data))
            (aoe.issue.lba data) true)._buffer (512 + 36) c.timeout).2,
          [Call.transmitt (_fill_header_aoe_issue
            (_fill_data_aoe_issue_identify (seeded c s data))
            (aoe.issue.lba data) true)._buffer (512 + 36) c.timeout]⟩ := by
  simp only [respond, seeded, hi, hid, if_true, if_neg issue_ne_query]

theorem read_ne_identify :
    aoe.issue.command.Read_sectors_with_retry ≠ aoe.issue.command.Identify_Device := by
  decide

theorem write_ne_identify :
    aoe.issue.command.Write_sectors_with_retry ≠ aoe.issue.command.Identify_Device := by
  decide

theorem write_ne_read :
    aoe.issue.command.Write_sectors_with_retry ≠ aoe.issue.command.Read_sectors_with_retry := by
  decide

theorem issue_sector_count_lt (data : Buffer) : aoe.issue.sector_count data < 256 := by
  have := getBytes_lt [26] data
  simpa [aoe.issue.sector_count] using this

theorem fill_data_aoe_issue_read_eq {σ : Type} (h : Handlers σ) (s : Server) (w : σ)
    (data : Buffer) :
    _fill_data_aoe_issue_read h s w (aoe.issue.sector_count data % 256)
        ((aoe.issue.lba data % 2 ^ 32) &&& 0x00ffffff)
      = readLoop h (aoe.issue.lba data &&& 0x00ffffff) (aoe.issue.sector_count data) 0
          s._buffer w := by
  have h1 : aoe.issue.sector_count data % 256 % 256 = aoe.issue.sector_count data := by
    have := issue_sector_count_lt data
    omega
  have h2 : ((aoe.issue.lba data % 2 ^ 32) &&& 0x00ffffff) % 2 ^ 32
      = aoe.issue.lba data &&& 0x00ffffff := by
    rw [land_mask_mod]
    have := land_mask_lt (aoe.issue.lba data)
    omega
  rw [_fill_data_aoe_issue_read, h1, h2]

theorem fill_data_aoe_issue_write_eq {σ : Type} (h : Handlers σ) (w : σ) (data : Buffer) :
    _fill_data_aoe_issue_write h w data (aoe.issue.sector_count data % 256)
        ((aoe.issue.lba data % 2 ^ 32) &&& 0x00ffffff)
      = writeLoop h data (aoe.issue.lba data &&& 0x00ffffff) (aoe.issue.sector_count data) 0
          w := by
  have h1 : aoe.issue.sector_count data % 256 % 256 = aoe.issue.sector_count data := by
    have := issue_sector_count_lt data
    omega
  have h2 : ((aoe.issue.lba data % 2 ^ 32) &&& 0x00ffffff) % 2 ^ 32
      = aoe.issue.lba data &&& 0x00ffffff := by
    rw [land_mask_mod]
    have := land_mask_lt (aoe.issue.lba data)
    omega
  rw [_fill_data_aoe_issue_write, h1, h2]

theorem respond_read {σ : Type} (c : Constants) (h : Handlers σ) (s : Server) (data : Buffer)
    (w : σ) (hi : aoe.command data = aoe.command.Issue_ata_command)
    (hr : aoe.issue.command data = aoe.issue.command.Read_sectors_with_retry) :
    respond c h s data w
      = if (readRun c h s data w).result = false then
          ⟨readDone c h s data w, (readRun c h s data w).world, (readRun c h s data w).calls⟩
        else
          ⟨readDone c h s data w,
            (h.transmitt (readRun c h s data w).world (readDone c h s data w)._buffer
              (36 + 512 * aoe.issue.sector_count data) c.timeout).2,
            (readRun c h s data w).calls ++
              [Call.transmitt (readDone c h s data w)._buffer
                (36 + 512 * aoe.issue.sector_count data) c.timeout]⟩ := by
  have h1 : aoe.issue.sector_count data % 256 = aoe.issue.sector_count data :=
    Nat.mod_eq_of_lt (issue_sector_count_lt data)
  have hnq : ¬ aoe.command data = aoe.command.Query_config_information := by
    rw [hi]
    exact issue_ne_query
  have hni : ¬ aoe.issue.command data = aoe.issue.command.Identify_Device := by
    rw [hr]
    exact read_ne_identify
  simp only [respond, if_neg hnq, if_pos hi, if_neg hni, if_pos hr]
  rw [show _fill_header_aoe c (_fill_header_eth s (eth.source data)) (aoe.command data)
        (aoe.tag data) = seeded c s data from rfl, fill_data_aoe_issue_read_eq, h1]
  rfl

theorem respond_write {σ : Type} (c : Constants) (h : Handlers σ) (s : Server) (data : Buffer)
    (w : σ) (hi : aoe.command data = aoe.command.Issue_ata_command)
    (hr : aoe.issue.command data = aoe.issue.command.Write_sectors_with_retry) :
    respond c h s data w
      = if (writeRun h data w).1 = false then
          ⟨writeDone c h s data w, (writeRun h data w).2.1, (writeRun h data w).2.2⟩
        else
          ⟨writeDone c h s data w,
            (h.transmitt (writeRun h data w).2.1 (writeDone c h s data w)._buffer 36
              c.timeout).2,
            (writeRun h data w).2.2 ++
              [Call.transmitt (writeDone c h s data w)._buffer 36 c.timeout]⟩ := by
  have hnq : ¬ aoe.command data = aoe.command.Query_config_information := by
    rw [hi]
    exact issue_ne_query
  have hni : ¬ aoe.issue.command data = aoe.issue.command.Identify_Device := by
    rw [hr]
    exact write_ne_identify
  have hnr : ¬ aoe.issue.command data = aoe.issue.command.Read_sectors_with_retry := by
    rw [hr]
    exact write_ne_read
  simp only [respond, if_neg hnq, if_pos hi, if_neg hni, if_neg hnr, if_pos hr]
  rw [show _fill_header_aoe c (_fill_header_eth s (eth.source data)) (aoe.command data)
        (aoe.tag data) = seeded c s data from rfl, fill_data_aoe_issue_write_eq]
  rfl


theorem respond_unknown_issue {σ : Type} (c : Constants) (h : Handlers σ) (s : Server)
    (data : Buffer) (w : σ) (hi : aoe.command data = aoe.command.Issue_ata_command)
    (h1 : aoe.issue.command data ≠ aoe.issue.command.Identify_Device)
    (h2 : aoe.issue.command data ≠ aoe.issue.command.Read_sectors_with_retry)
    (h3 : aoe.issue.command data ≠ aoe.issue.command.Write_sectors_with_retry) :
    respond c h s data w = ⟨seeded c s data, w, []⟩ := by
  have hnq : ¬ aoe.command data = aoe.command.Query_config_information := by
    rw [hi]
    exact issue_ne_query
  simp only [respond, if_neg hnq, if_pos hi, if_neg h1, if_neg h2, if_neg h3]
  rfl

theorem respond_unknown {σ : Type} (c : Constants) (h : Handlers σ) (s : Server)
    (data : Buffer) (w : σ) (h1 : aoe.command data ≠ aoe.command.Query_config_information)
    (h2 : aoe.command data ≠ aoe.command.Issue_ata_command) :
    respond c h s data w = ⟨seeded c s data, w, []⟩ := by
  simp only [respond, if_neg h1, if_neg h2]
  rfl

theorem readRun_low {σ : Type} (c : Constants) (h : Handlers σ) (s : Server) (data : Buffer)
    (w : σ) (j : Nat) (hj : j < 36) :
    (readRun c h s data w).buffer j = (seeded c s data)._buffer j :=
  readLoop_low h _ _ 0 _ w j (by omega)

theorem readDone_low {σ : Type} (c : Constants) (h : Handlers σ) (s : Server) (data : Buffer)
    (w : σ) (j : Nat) (hj : j < 27) :
    (readDone c h s data w)._buffer j = (seeded c s data)._buffer j := by
  rw [readDone, fill_header_aoe_issue_other _ _ _ _ (Or.inl hj)]
  exact readRun_low c h s data w j (by omega)

/-- Whatever the request, the first 24 bytes of the buffer that `respond` leaves are those
of the seeded headers. -/
theorem respond_low {σ : Type} (c : Constants) (h : Handlers σ) (s : Server) (data : Buffer)
    (w : σ) (j : Nat) (hj : j < 24) :
    (respond c h s data w).server._buffer j = (seeded c s data)._buffer j := by
  by_cases hq : aoe.command data = aoe.command.Query_config_information
  · rw [respond_query c h s data w hq]
    exact fill_data_aoe_query_other c _ j (Or.inl hj)
  by_cases hi : aoe.command data = aoe.command.Issue_ata_command
  · by_cases h1 : aoe.issue.command data = aoe.issue.command.Identify_Device
    · rw [respond_identify c h s data w hi h1]
      simp only
      rw [fill_header_aoe_issue_other _ _ _ _ (by omega),
        fill_data_aoe_issue_identify_other _ _ (by omega)]
    by_cases h2 : aoe.issue.command data = aoe.issue.command.Read_sectors_with_retry
    · rw [respond_read c h s data w hi h2]
      split <;> exact readDone_low c h s data w j (by omega)
    by_cases h3 : aoe.issue.command data = aoe.issue.command.Write_sectors_with_retry
    · rw [respond_write c h s data w hi h3]
      split <;> exact fill_header_aoe_issue_other _ _ _ _ (by omega)
    · rw [respond_unknown_issue c h s data w hi h1 h2 h3]
  · rw [respond_unknown c h s data w hq hi]

/-- Every frame that `respond` hands to the transmit collaborator is the buffer it leaves. -/
theorem respond_transmitted {σ : Type} (c : Constants) (h : Handlers σ) (s : Server)
    (data : Buffer) (w : σ) (frame : Buffer) (len t : Nat)
    (hc : Call.transmitt frame len t ∈ (respond c h s data w).calls) :
    frame = (respond c h s data w).server._buffer := by
  by_cases hq : aoe.command data = aoe.command.Query_config_information
  · rw [respond_query c h s data w hq] at hc ⊢
    simp only [List.mem_singleton, Call.transmitt.injEq] at hc
    exact hc.1
  by_cases hi : aoe.command data = aoe.command.Issue_ata_command
  · by_cases h1 : aoe.issue.command data = aoe.issue.command.Identify_Device
    · rw [respond_identify c h s data w hi h1] at hc ⊢
      simp only [List.mem_singleton, Call.transmitt.injEq] at hc
      exact hc.1
    by_cases h2 : aoe.issue.command data = aoe.issue.command.Read_sectors_with_retry
    · rw [respond_read c h s data w hi h2] at hc ⊢
      by_cases hres : (readRun c h s data w).result = false
      · rw [if_pos hres] at hc
        exact absurd (readLoop_calls h _ _ _ _ _ _ hc) (by simp [Call.isTransmitt])
      · rw [if_neg hres] at hc ⊢
        simp only [List.mem_append, List.mem_singleton, Call.transmitt.injEq] at hc
        rcases hc with e | e
        · exact absurd (readLoop_calls h _ _ _ _ _ _ e) (by simp [Call.isTransmitt])
        · exact e.1
    by_cases h3 : aoe.issue.command data = aoe.issue.command.Write_sectors_with_retry
    · rw [respond_write c h s data w hi h3] at hc ⊢
      by_cases hres : (writeRun h data w).1 = false
      · rw [if_pos hres] at hc
        exact absurd (writeLoop_calls h _ _ _ _ _ _ hc) (by simp [Call.isTransmitt])
      · rw [if_neg hres] at hc ⊢
        simp only [List.mem_append, List.mem_singleton, Call.transmitt.injEq] at hc
        rcases hc with e | e
        · exact absurd (writeLoop_calls h _ _ _ _ _ _ e) (by simp [Call.isTransmitt])
        · exact e.1
    · rw [respond_unknown_issue c h s data w hi h1 h2 h3] at hc
      simp at hc
  · rw [respond_unknown c h s data w hq hi] at hc
    simp at hc

end stack

/-! ## The seeded headers -/

namespace stack

theorem seeded_destination (c : Constants) (s : Server) (data : Buffer) :
    eth.destination (seeded c s data)._buffer = eth.source data := by
  have hlt : eth.source data < 256 ^ 6 := getBytes_lt [6, 7, 8, 9, 10, 11] data
  simp (disch := decide) only [seeded, _fill_header_aoe, _fill_header_eth, eth.destination,
    eth.set_destination, eth.set_source, eth.set_type, aoe.set_version, aoe.set_flag_response,
    aoe.set_flag_error, aoe.set_error, aoe.set_address_major, aoe.set_address_minor,
    aoe.set_command, aoe.set_tag, getBytes_setBytes_other, getBytes_setBits_other,
    getBytes_setBytes_same]
  exact Nat.mod_eq_of_lt hlt

theorem seeded_type (c : Constants) (s : Server) (data : Buffer) :
    eth.type (seeded c s data)._buffer = eth.type.Aoe := by
  simp (disch := decide) only [seeded, _fill_header_aoe, _fill_header_eth, eth.type,
    eth.set_destination, eth.set_source, eth.set_type, aoe.set_version, aoe.set_flag_response,
    aoe.set_flag_error, aoe.set_error, aoe.set_address_major, aoe.set_address_minor,
    aoe.set_command, aoe.set_tag, getBytes_setBytes_other, getBytes_setBits_other,
    getBytes_setBytes_same]
  decide

theorem seeded_byte14 (c : Constants) (s : Server) (data : Buffer) :
    getByte (seeded c s data)._buffer 14
      = c.aoe_version % 16 * 16 + 8 + getByte s._buffer 14 % 4 := by
  have e : ∀ b : Buffer, getByte (aoe.set_flag_error false (aoe.set_flag_response true
      (aoe.set_version c.aoe_version b))) 14
      = c.aoe_version % 16 * 16 + 8 + getByte b 14 % 4 := by
    intro b
    simp only [aoe.set_flag_error, aoe.set_flag_response, aoe.set_version, getByte_setBits_same,
      if_true, Bool.false_eq_true, if_false]
    have := getByte_lt b 14
    omega
  have e2 : getByte (_fill_header_eth s (eth.source data))._buffer 14 = getByte s._buffer 14 := by
    rw [getByte, getByte, fill_header_eth_other _ _ _ (Nat.le_refl _)]
  rw [← e2, ← e]
  simp only [seeded, _fill_header_aoe, aoe.set_error, aoe.set_address_major,
    aoe.set_address_minor, aoe.set_command, aoe.set_tag, getByte]
  repeat rw [setBytes_other _ _ _ _ (by decide)]

theorem seeded_version (c : Constants) (s : Server) (data : Buffer) :
    aoe.version (seeded c s data)._buffer = c.aoe_version % 16 := by
  rw [aoe.version, getBits, seeded_byte14]
  omega

theorem seeded_flag_response (c : Constants) (s : Server) (data : Buffer) :
    aoe.flag_response (seeded c s data)._buffer = true := by
  rw [aoe.flag_response, getBits, seeded_byte14]
  simp only [decide_eq_true_eq]
  omega

theorem seeded_flag_error (c : Constants) (s : Server) (data : Buffer) :
    aoe.flag_error (seeded c s data)._buffer = false := by
  rw [aoe.flag_error, getBits, seeded_byte14]
  simp only [decide_eq_false_iff_not]
  omega

theorem seeded_error (c : Constants) (s : Server) (data : Buffer) :
    aoe.error (seeded c s data)._buffer = 0 := by
  simp (disch := decide) only [seeded, _fill_header_aoe, aoe.error, aoe.set_error,
    aoe.set_address_major, aoe.set_address_minor, aoe.set_command, aoe.set_tag,
    getBytes_setBytes_other, getBytes_setBytes_same]
  decide

theorem seeded_address_major (c : Constants) (s : Server) (data : Buffer) :
    aoe.address_major (seeded c s data)._buffer = s._major % 65536 := by
  simp (disch := decide) only [seeded, _fill_header_aoe, _fill_header_eth, aoe.address_major,
    aoe.set_address_major, aoe.set_address_minor, aoe.set_command, aoe.set_tag,
    getBytes_setBytes_other, getBytes_setBytes_same]
  rfl

theorem seeded_address_minor (c : Constants) (s : Server) (data : Buffer) :
    aoe.address_minor (seeded c s data)._buffer = s._minor % 256 := by
  simp (disch := decide) only [seeded, _fill_header_aoe, _fill_header_eth, aoe.address_minor,
    aoe.set_address_minor, aoe.set_command, aoe.set_tag,
    getBytes_setBytes_other, getBytes_setBytes_same]
  rfl

theorem seeded_command (c : Constants) (s : Server) (data : Buffer) :
    aoe.command (seeded c s data)._buffer = aoe.command data := by
  have hlt : aoe.command data < 256 ^ 1 := getBytes_lt [19] data
  simp (disch := decide) only [seeded, _fill_header_aoe, aoe.command, aoe.set_command,
    aoe.set_tag, getBytes_setBytes_other, getBytes_setBytes_same]
  simp only [aoe.command] at hlt
  simp only [List.length_singleton]
  omega

theorem seeded_tag (c : Constants) (s : Server) (data : Buffer) :
    aoe.tag (seeded c s data)._buffer = aoe.tag data := by
  have hlt : aoe.tag data < 256 ^ 4 := getBytes_lt [20, 21, 22, 23] data
  simp (disch := decide) only [seeded, _fill_header_aoe, aoe.tag, aoe.set_tag,
    getBytes_setBytes_same]
  simp only [aoe.tag] at hlt
  simp only [List.length_cons, List.length_singleton, List.length_nil]
  omega


end stack

/-! ## The sub-header fills -/

namespace stack

theorem getBytes_agree (ps : List Nat) (n : Nat) (b b' : Buffer) (hps : ∀ p ∈ ps, p < n)
    (hag : ∀ j, j < n → b j = b' j) : getBytes ps b = getBytes ps b' :=
  getBytes_congr ps b b' (fun p hp => hag p (hps p hp))


theorem seeded_high (c : Constants) (s : Server) (data : Buffer) (j : Nat) (hj : 24 ≤ j) :
    (seeded c s data)._buffer j = s._buffer j := by
  rw [seeded, fill_header_aoe_other _ _ _ _ _ (Or.inr hj), fill_header_eth_other _ _ _ (by omega)]

theorem query_buffer_count (c : Constants) (s : Server) :
    aoe.query.buffer_count (_fill_data_aoe_query c s)._buffer = c.buffer_count % 256 := by
  simp (disch := decide) only [_fill_data_aoe_query, aoe.query.buffer_count,
    aoe.query.set_buffer_count, aoe.query.set_firmware_version, aoe.query.set_sector_count,
    aoe.query.set_aoe_version, aoe.query.set_command, aoe.query.set_config_string_length,
    getBytes_setBytes_other, getBytes_setBits_other, getBytes_setBytes_same]
  rfl

theorem query_firmware_version (c : Constants) (s : Server) :
    aoe.query.firmware_version (_fill_data_aoe_query c s)._buffer
      = c.firmware_version % 65536 := by
  simp (disch := decide) only [_fill_data_aoe_query, aoe.query.firmware_version,
    aoe.query.set_firmware_version, aoe.query.set_sector_count,
    aoe.query.set_aoe_version, aoe.query.set_command, aoe.query.set_config_string_length,
    getBytes_setBytes_other, getBytes_setBits_other, getBytes_setBytes_same]
  rfl

theorem query_sector_count (c : Constants) (s : Server) :
    aoe.query.sector_count (_fill_data_aoe_query c s)._buffer = c.sector_count % 256 := by
  simp (disch := decide) only [_fill_data_aoe_query, aoe.query.sector_count,
    aoe.query.set_sector_count,
    aoe.query.set_aoe_version, aoe.query.set_command, aoe.query.set_config_string_length,
    getBytes_setBytes_other, getBytes_setBits_other, getBytes_setBytes_same]
  rfl

theorem query_byte28 (c : Constants) (s : Server) :
    getByte (_fill_data_aoe_query c s)._buffer 28 = c.aoe_version % 16 * 16 := by
  have e : ∀ b : Buffer, getByte (aoe.query.set_command aoe.query.command.Read_config_string
      (aoe.query.set_aoe_version c.aoe_version b)) 28 = c.aoe_version % 16 * 16 := by
    intro b
    simp only [aoe.query.set_command, aoe.query.set_aoe_version, getByte_setBits_same,
      aoe.query.command.Read_config_string]
    have := getByte_lt b 28
    omega
  rw [← e (aoe.query.set_sector_count c.sector_count (aoe.query.set_firmware_version
    c.firmware_version (aoe.query.set_buffer_count c.buffer_count s._buffer)))]
  simp only [_fill_data_aoe_query, aoe.query.set_config_string_length, getByte]
  rw [setBytes_other _ _ _ _ (by decide)]

theorem query_aoe_version (c : Constants) (s : Server) :
    aoe.query.aoe_version (_fill_data_aoe_query c s)._buffer = c.aoe_version % 16 := by
  rw [aoe.query.aoe_version, getBits, query_byte28]
  omega

theorem query_command (c : Constants) (s : Server) :
    aoe.query.command (_fill_data_aoe_query c s)._buffer
      = aoe.query.command.Read_config_string := by
  rw [aoe.query.command, getBits, query_byte28, aoe.query.command.Read_config_string]
  omega

theorem query_config_string_length (c : Constants) (s : Server) :
    aoe.query.config_string_length (_fill_data_aoe_query c s)._buffer = 0 := by
  simp (disch := decide) only [_fill_data_aoe_query, aoe.query.config_string_length,
    aoe.query.set_config_string_length, getBytes_setBytes_same]
  decide


theorem issue_byte27 (s : Server) (lba : Nat) (ready : Bool) :
    getByte (_fill_header_aoe_issue s lba ready)._buffer 27
      = if ready = true then
          (getByte s._buffer 27 - getByte s._buffer 27 / 64 % 2 * 64 + 64) % 256
        else (getByte s._buffer 27 - getByte s._buffer 27 % 2 + 1) % 256 := by
  simp only [_fill_header_aoe_issue, aoe.issue.set_lba, getByte]
  rw [setBytes_other _ _ _ _ (by decide)]
  cases ready with
  | true =>
    simp only [if_true, aoe.issue.set_status_device_ready]
    have := getByte_setBits_same 27 64 2 1 s._buffer
    simp only [getByte] at this
    rw [this]
  | false =>
    simp only [Bool.false_eq_true, if_false, aoe.issue.set_status_error, if_true]
    have := getByte_setBits_same 27 1 2 1 s._buffer
    simp only [getByte, Nat.div_one, Nat.mul_one] at this
    rw [this]

theorem issue_ready_set (s : Server) (lba : Nat) :
    aoe.issue.status_device_ready (_fill_header_aoe_issue s lba true)._buffer = true := by
  rw [aoe.issue.status_device_ready, getBits, issue_byte27]
  simp only [if_true, decide_eq_true_eq]
  have := getByte_lt s._buffer 27
  omega

theorem issue_error_clear (s : Server) (lba : Nat) (hz : s._buffer 27 = 0) :
    aoe.issue.status_error (_fill_header_aoe_issue s lba true)._buffer = false := by
  rw [aoe.issue.status_error, getBits, issue_byte27]
  simp only [if_true, getByte, hz, decide_eq_false_iff_not]
  decide

theorem issue_error_set (s : Server) (lba : Nat) :
    aoe.issue.status_error (_fill_header_aoe_issue s lba false)._buffer = true := by
  rw [aoe.issue.status_error, getBits, issue_byte27]
  simp only [Bool.false_eq_true, if_false, decide_eq_true_eq]
  have := getByte_lt s._buffer 27
  omega

theorem issue_ready_clear (s : Server) (lba : Nat) (hz : s._buffer 27 = 0) :
    aoe.issue.status_device_ready (_fill_header_aoe_issue s lba false)._buffer = false := by
  rw [aoe.issue.status_device_ready, getBits, issue_byte27]
  simp only [Bool.false_eq_true, if_false, getByte, hz, decide_eq_false_iff_not]
  decide

theorem identify_sector_number (s : Server) (lba : Nat) :
    aoe.issue.identify.logical_sector_number
        (_fill_header_aoe_issue (_fill_data_aoe_issue_identify s) lba true)._buffer
      = s._sectors % 2 ^ 64 := by
  simp (disch := decide) only [_fill_header_aoe_issue, _fill_data_aoe_issue_identify,
    aoe.issue.identify.logical_sector_number, aoe.issue.identify.set_logical_sector_number,
    aoe.issue.set_lba, aoe.issue.set_status_device_ready, if_true,
    getBytes_setBytes_other, getBytes_setBits_other, getBytes_setBytes_same]
  rfl

end stack

/-! ## Validation -/

namespace stack

theorem check_chain (d B E t A v V e m M m' n N n' : Nat) (fe fr : Bool) :
    (if d ≠ B ∧ d ≠ E then false
      else if t ≠ A then false
      else if v ≠ V then false
      else if fe = true then false
      else if fr = true then false
      else if e ≠ 0 then false
      else if m ≠ M ∧ m ≠ m' then false
      else if n ≠ N ∧ n ≠ n' then false
      else true) = true ↔
      (d = B ∨ d = E) ∧ t = A ∧ v = V ∧ fe = false ∧ fr = false ∧ e = 0 ∧
      (m = M ∨ m = m') ∧ (n = N ∨ n = n') := by
  cases fe <;> cases fr <;>
    simp only [Bool.false_eq_true, Bool.true_eq_false, if_true, if_false, false_and, and_false,
      true_and, and_true, iff_false, Bool.false_eq_true, not_false_eq_true] <;>
    split_ifs <;>
    simp only [Bool.false_eq_true, false_iff, true_iff, ne_eq, not_and, not_not] at * <;>
    tauto

theorem check_valid_true_iff (c : Constants) (s : Server) (data : Buffer) :
    _check_valid c s data = true ↔
      (eth.destination data = eth.address.Broadcast ∨ eth.destination data = eth.address.Empty) ∧
      eth.type data = eth.type.Aoe ∧
      aoe.version data = c.aoe_version ∧
      aoe.flag_error data = false ∧
      aoe.flag_response data = false ∧
      aoe.error data = 0 ∧
      (aoe.address_major data = s._major ∨ aoe.address_major data = 0xffff) ∧
      (aoe.address_minor data = s._minor ∨ aoe.address_minor data = 0xff) := by
  exact check_chain _ _ _ _ _ _ _ _ _ _ _ _ _ _ _ _

theorem process_of_invalid {σ : Type} (c : Constants) (h : Handlers σ) (s : Server)
    (data : Buffer) (w : σ) (hv : _check_valid c s data = false) :
    process c h s data w = ⟨s, w, []⟩ := by
  simp [process, hv]

theorem process_of_valid {σ : Type} (c : Constants) (h : Handlers σ) (s : Server)
    (data : Buffer) (w : σ) (hv : _check_valid c s data = true) :
    process c h s data w
      = ⟨_clear (respond c h s data w).server, (respond c h s data w).world,
          (respond c h s data w).calls⟩ := by
  simp [process, hv]

/-- C1: a frame that breaks any one of the validity conditions (destination neither
broadcast nor empty, ethertype not AoE, version mismatch, error flag, response flag,
non-zero error byte, major neither own nor 0xFFFF, minor neither own nor 0xFF) makes
`process` call no collaborator at all, and so never the transmit collaborator; the world
is left as it was. -/
theorem process_invalid_silent {σ : Type} (c : Constants) (h : Handlers σ) (s : Server)
    (data : Buffer) (w : σ)
    (hbad :
      (eth.destination data ≠ eth.address.Broadcast ∧ eth.destination data ≠ eth.address.Empty) ∨
      eth.type data ≠ eth.type.Aoe ∨
      aoe.version data ≠ c.aoe_version ∨
      aoe.flag_error data = true ∨
      aoe.flag_response data = true ∨
      aoe.error data ≠ 0 ∨
      (aoe.address_major data ≠ s._major ∧ aoe.address_major data ≠ 0xffff) ∨
      (aoe.address_minor data ≠ s._minor ∧ aoe.address_minor data ≠ 0xff)) :
    (process c h s data w).calls = [] ∧ (process c h s data w).world = w := by
  have hv : _check_valid c s data = false := by
    cases hc : _check_valid c s data with
    | false => rfl
    | true =>
      obtain ⟨h1, h2, h3, h4, h5, h6, h7, h8⟩ := (check_valid_true_iff c s data).mp hc
      rw [h4, h5] at hbad
      rcases hbad with g | g | g | g | g | g | g | g
      · exact absurd h1 (not_or.mpr g)
      · exact absurd h2 g
      · exact absurd h3 g
      · exact absurd g Bool.false_ne_true
      · exact absurd g Bool.false_ne_true
      · exact absurd h6 g
      · exact absurd h7 (not_or.mpr g)
      · exact absurd h8 (not_or.mpr g)
  rw [process_of_invalid c h s data w hv]
  exact ⟨rfl, rfl⟩

/-- Witness for C1: the sample server makes no call for a frame whose ethertype is 0x0800. -/
theorem process_invalid_silent_witness :
    (process sample.consts sample.handlers sample.server sample.foreign ()).calls = [] ∧
    (process sample.consts sample.handlers sample.server sample.foreign ()).world = () :=
  process_invalid_silent sample.consts sample.handlers sample.server sample.foreign ()
    (Or.inr (Or.inl (by decide)))

/-- C2: `_check_valid` returns true exactly when the destination is broadcast or empty,
the ethertype is AoE, the version is `aoe_version`, both flags are clear, the error byte
is 0, the major is the server's or 0xFFFF and the minor is the server's or 0xFF; in
particular a request for major 0xFFFF and minor 0xFF that meets the other conditions is
accepted by a server of any major and minor. -/
theorem check_valid_exact (c : Constants) (s : Server) (data : Buffer) :
    (_check_valid c s data = true ↔
      (eth.destination data = eth.address.Broadcast ∨ eth.destination data = eth.address.Empty) ∧
      eth.type data = eth.type.Aoe ∧
      aoe.version data = c.aoe_version ∧
      aoe.flag_error data = false ∧
      aoe.flag_response data = false ∧
      aoe.error data = 0 ∧
      (aoe.address_major data = s._major ∨ aoe.address_major data = 0xffff) ∧
      (aoe.address_minor data = s._minor ∨ aoe.address_minor data = 0xff)) ∧
    (((eth.destination data = eth.address.Broadcast ∨ eth.destination data = eth.address.Empty) ∧
      eth.type data = eth.type.Aoe ∧
      aoe.version data = c.aoe_version ∧
      aoe.flag_error data = false ∧
      aoe.flag_response data = false ∧
      aoe.error data = 0 ∧
      aoe.address_major data = 0xffff ∧
      aoe.address_minor data = 0xff) →
      ∀ major minor sectors buffer, _check_valid c ⟨major, minor, sectors, buffer⟩ data = true) := by
  refine ⟨check_valid_true_iff c s data, ?_⟩
  intro hw major minor sectors buffer
  obtain ⟨h1, h2, h3, h4, h5, h6, h7, h8⟩ := hw
  exact (check_valid_true_iff c _ data).mpr
    ⟨h1, h2, h3, h4, h5, h6, Or.inr h7, Or.inr h8⟩

/-- Witness for C2: the discovery request, for major 0xFFFF and minor 0xFF, is accepted by
a server with major 7 and minor 3 and by one with major 40000 and minor 200. -/
theorem check_valid_exact_witness :
    _check_valid sample.consts sample.server sample.discovery = true ∧
    _check_valid sample.consts ⟨40000, 200, 5, fun _ => 0⟩ sample.discovery = true :=
  ⟨by decide,
   (check_valid_exact sample.consts sample.server sample.discovery).2
     (by decide) 40000 200 5 (fun _ => 0)⟩

theorem process_calls_of_valid {σ : Type} (c : Constants) (h : Handlers σ) (s : Server)
    (data : Buffer) (w : σ) (hv : _check_valid c s data = true) :
    (process c h s data w).calls = (respond c h s data w).calls := by
  rw [process_of_valid c h s data w hv]

end stack

/-! ## Response headers -/

namespace stack

/-- C3: every frame that `process` hands to the transmit collaborator for an accepted
request carries the tag and the AoE command of the request; no later fill of the response
(query sub-header, identify block, issue status and lba, sector payload) changes them. -/
theorem process_echoes_tag {σ : Type} (c : Constants) (h : Handlers σ) (s : Server)
    (data : Buffer) (w : σ) (frame : Buffer) (len t : Nat)
    (hv : _check_valid c s data = true)
    (hc : Call.transmitt frame len t ∈ (process c h s data w).calls) :
    aoe.tag frame = aoe.tag data ∧ aoe.command frame = aoe.command data := by
  rw [process_calls_of_valid c h s data w hv] at hc
  have hf := respond_transmitted c h s data w frame len t hc
  have hag : ∀ j, j < 24 → frame j = (seeded c s data)._buffer j := by
    intro j hj
    rw [hf]
    exact respond_low c h s data w j hj
  constructor
  · rw [← seeded_tag c s data]
    exact getBytes_agree _ 24 _ _ (by decide) hag
  · rw [← seeded_command c s data]
    exact getBytes_agree _ 24 _ _ (by decide) hag

/-- Witness for C3: the answer of the sample server to the discovery request carries its
tag 0xdeadbeef and its command, 1. -/
theorem process_echoes_tag_witness :
    aoe.tag sample.discoveryAnswer = 0xdeadbeef ∧
    aoe.command sample.discoveryAnswer = 1 :=
  process_echoes_tag sample.consts sample.handlers sample.server sample.discovery ()
    sample.discoveryAnswer 32 1000
    (by decide)
    (by
      rw [process_calls_of_valid _ _ _ _ _ (by decide), respond_query _ _ _ _ _ (by decide)]
      exact List.mem_singleton_self _)

/-- C4: every frame that `process` hands to the transmit collaborator for an accepted
request is addressed to the Ethernet source of the request, has ethertype AoE and version
`aoe_version`, has the response flag set, the error flag clear and the error byte 0, and
carries the major and minor of the server itself, for a server whose major is a 16-bit and
whose minor is an 8-bit value. -/
theorem process_seeds_headers {σ : Type} (c : Constants) (h : Handlers σ) (s : Server)
    (data : Buffer) (w : σ) (frame : Buffer) (len t : Nat)
    (hmajor : s._major < 65536) (hminor : s._minor < 256)
    (hv : _check_valid c s data = true)
    (hc : Call.transmitt frame len t ∈ (process c h s data w).calls) :
    eth.destination frame = eth.source data ∧
    eth.type frame = eth.type.Aoe ∧
    aoe.version frame = c.aoe_version ∧
    aoe.flag_response frame = true ∧
    aoe.flag_error frame = false ∧
    aoe.error frame = 0 ∧
    aoe.address_major frame = s._major ∧
    aoe.address_minor frame = s._minor := by
  rw [process_calls_of_valid c h s data w hv] at hc
  have hf := respond_transmitted c h s data w frame len t hc
  have hag : ∀ j, j < 24 → frame j = (seeded c s data)._buffer j := by
    intro j hj
    rw [hf]
    exact respond_low c h s data w j hj
  have hver : c.aoe_version % 16 = c.aoe_version := by
    have h3 := ((check_valid_true_iff c s data).mp hv).2.2.1
    rw [← h3, aoe.version, getBits]
    omega
  refine ⟨?_, ?_, ?_, ?_, ?_, ?_, ?_, ?_⟩
  · rw [← seeded_destination c s data]
    exact getBytes_agree _ 24 _ _ (by decide) hag
  · rw [← seeded_type c s data]
    exact getBytes_agree _ 24 _ _ (by decide) hag
  · rw [← hver, ← seeded_version c s data]
    exact getBits_congr _ _ _ _ _ (hag 14 (by decide))
  · rw [← seeded_flag_response c s data, aoe.flag_response, aoe.flag_response,
      getBits_congr _ _ _ _ _ (hag 14 (by decide))]
  · rw [← seeded_flag_error c s data, aoe.flag_error, aoe.flag_error,
      getBits_congr _ _ _ _ _ (hag 14 (by decide))]
  · rw [← seeded_error c s data]
    exact getBytes_agree _ 24 _ _ (by decide) hag
  · rw [← Nat.mod_eq_of_lt hmajor, ← seeded_address_major c s data]
    exact getBytes_agree _ 24 _ _ (by decide) hag
  · rw [← Nat.mod_eq_of_lt hminor, ← seeded_address_minor c s data]
    exact getBytes_agree _ 24 _ _ (by decide) hag

/-- Witness for C4: the answer of the sample server (major 7, minor 3) to the discovery
request, which was sent to the broadcast address for major 0xFFFF and minor 0xFF, goes to
the sender 02:00:00:00:00:01 and carries major 7 and minor 3. -/
theorem process_seeds_headers_witness :
    eth.destination sample.discoveryAnswer = 0x020000000001 ∧
    eth.type sample.discoveryAnswer = 0x88a2 ∧
    aoe.version sample.discoveryAnswer = 1 ∧
    aoe.flag_response sample.discoveryAnswer = true ∧
    aoe.flag_error sample.discoveryAnswer = false ∧
    aoe.error sample.discoveryAnswer = 0 ∧
    aoe.address_major sample.discoveryAnswer = 7 ∧
    aoe.address_minor sample.discoveryAnswer = 3 :=
  process_seeds_headers sample.consts sample.handlers sample.server sample.discovery ()
    sample.discoveryAnswer 32 1000
    (by decide) (by decide) (by decide)
    (by
      rw [process_calls_of_valid _ _ _ _ _ (by decide), respond_query _ _ _ _ _ (by decide)]
      exact List.mem_singleton_self _)

end stack

/-! ## Config query -/

namespace stack

/-- C5: an accepted config query is answered by exactly one call, a transmit of 32 bytes,
whose query sub-header carries the constants `buffer_count`, `firmware_version`,
`sector_count` and `aoe_version` of the server (each fitting its wire field), the command
Read-Config-String and a config string length of 0; the read and write collaborators are
not called. -/
theorem process_query {σ : Type} (c : Constants) (h : Handlers σ) (s : Server)
    (data : Buffer) (w : σ)
    (hbuffers : c.buffer_count < 256) (hfirmware : c.firmware_version < 65536)
    (hsectors : c.sector_count < 256)
    (hv : _check_valid c s data = true)
    (hq : aoe.command data = aoe.command.Query_config_information) :
    ∃ frame : Buffer,
      (process c h s data w).calls = [Call.transmitt frame 32 c.timeout] ∧
      aoe.query.buffer_count frame = c.buffer_count ∧
      aoe.query.firmware_version frame = c.firmware_version ∧
      aoe.query.sector_count frame = c.sector_count ∧
      aoe.query.aoe_version frame = c.aoe_version ∧
      aoe.query.command frame = aoe.query.command.Read_config_string ∧
      aoe.query.config_string_length frame = 0 := by
  have hver : c.aoe_version % 16 = c.aoe_version := by
    have h3 := ((check_valid_true_iff c s data).mp hv).2.2.1
    rw [← h3, aoe.version, getBits]
    omega
  refine ⟨(_fill_data_aoe_query c (seeded c s data))._buffer, ?_, ?_, ?_, ?_, ?_, ?_, ?_⟩
  · rw [process_calls_of_valid c h s data w hv, respond_query c h s data w hq]
  · rw [query_buffer_count, Nat.mod_eq_of_lt hbuffers]
  · rw [query_firmware_version, Nat.mod_eq_of_lt hfirmware]
  · rw [query_sector_count, Nat.mod_eq_of_lt hsectors]
  · rw [query_aoe_version, hver]
  · exact query_command c _
  · exact query_config_string_length c _

/-- Witness for C5: the discovery request, for major 0xFFFF and minor 0xFF, makes the sample
server transmit 32 bytes with 16 buffers, firmware 0x4001, 2 sectors and version 1. -/
theorem process_query_witness :
    ∃ frame : Buffer,
      (process sample.consts sample.handlers sample.server sample.discovery ()).calls
        = [Call.transmitt frame 32 1000] ∧
      aoe.query.buffer_count frame = 16 ∧
      aoe.query.firmware_version frame = 0x4001 ∧
      aoe.query.sector_count frame = 2 ∧
      aoe.query.aoe_version frame = 1 ∧
      aoe.query.command frame = 0 ∧
      aoe.query.config_string_length frame = 0 :=
  process_query sample.consts sample.handlers sample.server sample.discovery ()
    (by decide) (by decide) (by decide) (by decide) (by decide)

end stack

/-! ## Identify device -/

namespace stack

/-- C6: an accepted Identify-Device request, arriving at a server whose buffer is clear, is
answered by exactly one call, a transmit of 548 bytes, whose identify block decodes to the
sector count of the server and whose status has the ready bit set and the error bit
clear. -/
theorem process_identify {σ : Type} (c : Constants) (h : Handlers σ) (s : Server)
    (data : Buffer) (w : σ)
    (hsectors : s._sectors < 2 ^ 64)
    (hidle : ∀ j, s._buffer j = 0)
    (hv : _check_valid c s data = true)
    (hi : aoe.command data = aoe.command.Issue_ata_command)
    (hid : aoe.issue.command data = aoe.issue.command.Identify_Device) :
    ∃ frame : Buffer,
      (process c h s data w).calls = [Call.transmitt frame 548 c.timeout] ∧
      aoe.issue.identify.logical_sector_number frame = s._sectors ∧
      aoe.issue.status_device_ready frame = true ∧
      aoe.issue.status_error frame = false := by
  refine ⟨(_fill_header_aoe_issue (_fill_data_aoe_issue_identify (seeded c s data))
    (aoe.issue.lba data) true)._buffer, ?_, ?_, ?_, ?_⟩
  · rw [process_calls_of_valid c h s data w hv, respond_identify c h s data w hi hid]
  · rw [identify_sector_number]
    exact Nat.mod_eq_of_lt hsectors
  · exact issue_ready_set _ _
  · apply issue_error_clear
    rw [fill_data_aoe_issue_identify_other _ _ (by omega), seeded_high _ _ _ _ (by omega)]
    exact hidle 27

/-- Witness for C6: the sample server, configured with 1,000,000 sectors, answers the
Identify-Device request with 548 bytes that decode to 1,000,000 sectors, ready and
without error. -/
theorem process_identify_witness :
    ∃ frame : Buffer,
      (process sample.consts sample.handlers sample.server sample.identify ()).calls
        = [Call.transmitt frame 548 1000] ∧
      aoe.issue.identify.logical_sector_number frame = 1000000 ∧
      aoe.issue.status_device_ready frame = true ∧
      aoe.issue.status_error frame = false :=
  process_identify sample.consts sample.handlers sample.server sample.identify ()
    (by decide) (fun _ => rfl) (by decide) (by decide) (by decide)

end stack

/-! ## Reading sectors -/

namespace stack

theorem readRun_bound (data : Buffer) :
    (aoe.issue.lba data &&& 0x00ffffff) + 0 + aoe.issue.sector_count data ≤ 2 ^ 32 := by
  have h1 := land_mask_lt (aoe.issue.lba data)
  have h2 := issue_sector_count_lt data
  omega

/-- C7: an accepted Read-Sectors-With-Retry request for `n` sectors at lba `L`, every read
of which succeeds, makes `process` call the read collaborator `n` times, the `i`-th time
for the buffer offset `i * 512 + 36` and the address `(L & 0x00ffffff) + i`, and then the
transmit collaborator once, with `36 + 512 * n` bytes; the bytes
`36 + 512 * i .. 36 + 512 * i + 511` of the frame are those the collaborator stored for
sector `i`, and the status has the ready bit set. -/
theorem process_read {σ : Type} (c : Constants) (h : Handlers σ) (s : Server)
    (data : Buffer) (w : σ) (n L : Nat)
    (hv : _check_valid c s data = true)
    (hi : aoe.command data = aoe.command.Issue_ata_command)
    (hr : aoe.issue.command data = aoe.issue.command.Read_sectors_with_retry)
    (hn : aoe.issue.sector_count data = n)
    (hL : aoe.issue.lba data = L)
    (hok : ∀ i, i < n → (readAnswer h (L &&& 0x00ffffff) w i).ok = true) :
    ∃ frame : Buffer,
      (process c h s data w).calls
        = (List.range n).map (fun i => Call.read (i * 512 + 36) ((L &&& 0x00ffffff) + i))
          ++ [Call.transmitt frame (36 + 512 * n) c.timeout] ∧
      (∀ i j, i < n → j < 512 →
        frame (36 + 512 * i + j) = (readAnswer h (L &&& 0x00ffffff) w i).bytes j) ∧
      aoe.issue.status_device_ready frame = true := by
  subst hn hL
  obtain ⟨r1, -, r3, -, r5⟩ := readLoop_ok h (aoe.issue.lba data &&& 0x00ffffff) w
    (aoe.issue.sector_count data) 0 (seeded c s data)._buffer (readRun_bound data)
    (fun k _ hk => hok k (by omega))
  have e1 : (readRun c h s data w).result = true := r1
  have e3 : (readRun c h s data w).calls
      = (List.range (aoe.issue.sector_count data)).map
          (fun i => Call.read (i * 512 + 36) ((aoe.issue.lba data &&& 0x00ffffff) + i)) := by
    rw [List.range_eq_range']
    exact r3
  refine ⟨(readDone c h s data w)._buffer, ?_, ?_, ?_⟩
  · rw [process_calls_of_valid c h s data w hv, respond_read c h s data w hi hr,
      if_neg (by rw [e1]; decide), e3]
  · intro i j hin hj
    rw [readDone, fill_header_aoe_issue_other _ _ _ _ (by omega)]
    have := r5 i j (Nat.zero_le _) (by omega) hj
    rw [show 36 + 512 * i + j = i * 512 + 36 + j by omega]
    exact this
  · rw [readDone, e1]
    exact issue_ready_set _ _

/-- Witness for C7: 4 sectors from lba 100, every read succeeding, give four reads at the
addresses 100 to 103 and one transmit of 2084 bytes. -/
theorem process_read_witness :
    ∃ frame : Buffer,
      (process sample.consts sample.handlers sample.server sample.readRequest ()).calls
        = (List.range 4).map (fun i => Call.read (i * 512 + 36) ((100 &&& 0x00ffffff) + i))
          ++ [Call.transmitt frame 2084 1000] ∧
      (∀ i j, i < 4 → j < 512 →
        frame (36 + 512 * i + j)
          = (readAnswer sample.handlers (100 &&& 0x00ffffff) () i).bytes j) ∧
      aoe.issue.status_device_ready frame = true :=
  process_read sample.consts sample.handlers sample.server sample.readRequest () 4 100
    (by decide) (by decide) (by decide) (by decide) (by decide) (fun _ _ => rfl)

/-- C8: when the read collaborator fails for sector `k` of an accepted
Read-Sectors-With-Retry request for `n` sectors, having succeeded for the sectors before
it, `process` makes no transmit call, and the response composed in the buffer before the
final clear has the error bit set and the ready bit clear (the buffer being clear when the
request arrives). -/
theorem process_read_failure {σ : Type} (c : Constants) (h : Handlers σ) (s : Server)
    (data : Buffer) (w : σ) (n L k : Nat)
    (hidle : ∀ j, s._buffer j = 0)
    (hv : _check_valid c s data = true)
    (hi : aoe.command data = aoe.command.Issue_ata_command)
    (hr : aoe.issue.command data = aoe.issue.command.Read_sectors_with_retry)
    (hn : aoe.issue.sector_count data = n)
    (hL : aoe.issue.lba data = L)
    (hk : k < n)
    (hbefore : ∀ i, i < k → (readAnswer h (L &&& 0x00ffffff) w i).ok = true)
    (hbad : (readAnswer h (L &&& 0x00ffffff) w k).ok = false) :
    (∀ call ∈ (process c h s data w).calls, call.isTransmitt = false) ∧
    aoe.issue.status_error (respond c h s data w).server._buffer = true ∧
    aoe.issue.status_device_ready (respond c h s data w).server._buffer = false := by
  subst hn hL
  obtain ⟨r1, -, -, -⟩ := readLoop_fail h (aoe.issue.lba data &&& 0x00ffffff) w k hbad
    (aoe.issue.sector_count data) 0 (seeded c s data)._buffer (readRun_bound data)
    (Nat.zero_le _) (by omega) (fun j _ hj => hbefore j hj)
  have e1 : (readRun c h s data w).result = false := r1
  rw [process_calls_of_valid c h s data w hv, respond_read c h s data w hi hr, if_pos e1]
  refine ⟨fun call hc => readLoop_calls h _ _ _ _ _ call hc, ?_, ?_⟩
  · simp only [readDone, e1]
    exact issue_error_set _ _
  · simp only [readDone, e1]
    apply issue_ready_clear
    simp only
    rw [readRun_low c h s data w 27 (by decide), seeded_high _ _ _ _ (by decide)]
    exact hidle 27

/-- Witness for C8: of 4 sectors from lba 100 the third read fails (`k = 2`). -/
theorem process_read_failure_witness :
    (∀ call ∈ (process sample.consts (sample.failing 2) sample.server sample.readRequest 0).calls,
      call.isTransmitt = false) ∧
    aoe.issue.status_error
      (respond sample.consts (sample.failing 2) sample.server sample.readRequest 0).server._buffer
        = true ∧
    aoe.issue.status_device_ready
      (respond sample.consts (sample.failing 2) sample.server sample.readRequest 0).server._buffer
        = false :=
  process_read_failure sample.consts (sample.failing 2) sample.server sample.readRequest 0
    4 100 2 (fun _ => rfl) (by decide) (by decide) (by decide) (by decide) (by decide)
    (by decide) (by decide) (by decide)

end stack

/-! ## Writing sectors -/

namespace stack

theorem window_eq (data : Buffer) (i : Nat) :
    window data (i * 512 + 36) = fun j => data (36 + 512 * i + j) := by
  funext j
  rw [window, show i * 512 + 36 + j = 36 + 512 * i + j by omega]

/-- C9: an accepted Write-Sectors-With-Retry request for `n` sectors at lba `L`, every
write of which succeeds, makes `process` call the write collaborator `n` times, the `i`-th
time with the 512 bytes of the request from offset `36 + 512 * i` on and the address
`(L & 0x00ffffff) + i`, and then the transmit collaborator once, with exactly 36 bytes and
the ready bit set in the status. -/
theorem process_write {σ : Type} (c : Constants) (h : Handlers σ) (s : Server)
    (data : Buffer) (w : σ) (n L : Nat)
    (hv : _check_valid c s data = true)
    (hi : aoe.command data = aoe.command.Issue_ata_command)
    (hr : aoe.issue.command data = aoe.issue.command.Write_sectors_with_retry)
    (hn : aoe.issue.sector_count data = n)
    (hL : aoe.issue.lba data = L)
    (hok : ∀ i, i < n → writeAnswer h data (L &&& 0x00ffffff) w i = true) :
    ∃ frame : Buffer,
      (process c h s data w).calls
        = (List.range n).map
            (fun i => Call.write (fun j => data (36 + 512 * i + j)) ((L &&& 0x00ffffff) + i))
          ++ [Call.transmitt frame 36 c.timeout] ∧
      aoe.issue.status_device_ready frame = true := by
  subst hn hL
  obtain ⟨r1, -, r3⟩ := writeLoop_ok h data (aoe.issue.lba data &&& 0x00ffffff) w
    (aoe.issue.sector_count data) 0 (readRun_bound data) (fun k _ hk => hok k (by omega))
  have e1 : (writeRun h data w).1 = true := r1
  have e3 : (writeRun h data w).2.2
      = (List.range (aoe.issue.sector_count data)).map
          (fun i => Call.write (fun j => data (36 + 512 * i + j))
            ((aoe.issue.lba data &&& 0x00ffffff) + i)) := by
    rw [List.range_eq_range']
    simp only [← window_eq]
    exact r3
  refine ⟨(writeDone c h s data w)._buffer, ?_, ?_⟩
  · rw [process_calls_of_valid c h s data w hv, respond_write c h s data w hi hr,
      if_neg (by rw [e1]; decide), e3]
  · rw [writeDone, e1]
    exact issue_ready_set _ _

/-- Witness for C9: 2 sectors to lba 100, both writes succeeding, give two writes at the
addresses 100 and 101 and one transmit of 36 bytes. -/
theorem process_write_witness :
    ∃ frame : Buffer,
      (process sample.consts sample.handlers sample.server sample.writeRequest ()).calls
        = (List.range 2).map
            (fun i => Call.write (fun j => sample.writeRequest (36 + 512 * i + j))
              ((100 &&& 0x00ffffff) + i))
          ++ [Call.transmitt frame 36 1000] ∧
      aoe.issue.status_device_ready frame = true :=
  process_write sample.consts sample.handlers sample.server sample.writeRequest () 2 100
    (by decide) (by decide) (by decide) (by decide) (by decide) (fun _ _ => rfl)

/-- C10: when the write collaborator returns false for some sector `k` of an accepted
Write-Sectors-With-Retry request for `n` sectors, `process` makes no transmit call, and the
response composed in the buffer before the final clear has the error bit set and the ready
bit clear (the buffer being clear when the request arrives). -/
theorem process_write_failure {σ : Type} (c : Constants) (h : Handlers σ) (s : Server)
    (data : Buffer) (w : σ) (n L k : Nat)
    (hidle : ∀ j, s._buffer j = 0)
    (hv : _check_valid c s data = true)
    (hi : aoe.command data = aoe.command.Issue_ata_command)
    (hr : aoe.issue.command data = aoe.issue.command.Write_sectors_with_retry)
    (hn : aoe.issue.sector_count data = n)
    (hL : aoe.issue.lba data = L)
    (hk : k < n)
    (hbad : writeAnswer h data (L &&& 0x00ffffff) w k = false) :
    (∀ call ∈ (process c h s data w).calls, call.isTransmitt = false) ∧
    aoe.issue.status_error (respond c h s data w).server._buffer = true ∧
    aoe.issue.status_device_ready (respond c h s data w).server._buffer = false := by
  subst hn hL
  have hex : ∃ m, writeAnswer h data (aoe.issue.lba data &&& 0x00ffffff) w m = false :=
    ⟨k, hbad⟩
  have hfirst := Nat.find_spec hex
  have hle : Nat.find hex ≤ k := Nat.find_min' hex hbad
  have hbefore : ∀ j, j < Nat.find hex →
      writeAnswer h data (aoe.issue.lba data &&& 0x00ffffff) w j = true := by
    intro j hj
    have := Nat.find_min hex hj
    simpa using this
  obtain ⟨r1, -, -⟩ := writeLoop_fail h data (aoe.issue.lba data &&& 0x00ffffff) w
    (Nat.find hex) hfirst (aoe.issue.sector_count data) 0 (readRun_bound data)
    (Nat.zero_le _) (by omega) (fun j _ hj => hbefore j hj)
  have e1 : (writeRun h data w).1 = false := r1
  rw [process_calls_of_valid c h s data w hv, respond_write c h s data w hi hr, if_pos e1]
  refine ⟨fun call hc => writeLoop_calls h _ _ _ _ _ call hc, ?_, ?_⟩
  · simp only [writeDone, e1]
    exact issue_error_set _ _
  · simp only [writeDone, e1]
    apply issue_ready_clear
    rw [seeded_high _ _ _ _ (by decide)]
    exact hidle 27

/-- Witness for C10: of 2 sectors to lba 100 the second write fails (`k = 1`). -/
theorem process_write_failure_witness :
    (∀ call ∈
        (process sample.consts (sample.failing 1) sample.server sample.writeRequest 0).calls,
      call.isTransmitt = false) ∧
    aoe.issue.status_error
      (respond sample.consts (sample.failing 1) sample.server sample.writeRequest 0).server._buffer
        = true ∧
    aoe.issue.status_device_ready
      (respond sample.consts (sample.failing 1) sample.server sample.writeRequest 0).server._buffer
        = false :=
  process_write_failure sample.consts (sample.failing 1) sample.server sample.writeRequest 0
    2 100 1 (fun _ => rfl) (by decide) (by decide) (by decide) (by decide) (by decide)
    (by decide) (by decide)

end stack

/-! ## Unsupported commands and buffer hygiene -/

namespace stack

/-- C11: an accepted frame whose AoE command is neither a config query nor an ATA command,
and an accepted ATA command whose opcode is none of identify, read and write, make
`process` call no collaborator: no transmit, no read, no write. -/
theorem process_unsupported_silent {σ : Type} (c : Constants) (h : Handlers σ) (s : Server)
    (data : Buffer) (w : σ)
    (hv : _check_valid c s data = true)
    (hu :
      (aoe.command data ≠ aoe.command.Query_config_information ∧
        aoe.command data ≠ aoe.command.Issue_ata_command) ∨
      (aoe.command data = aoe.command.Issue_ata_command ∧
        aoe.issue.command data ≠ aoe.issue.command.Identify_Device ∧
        aoe.issue.command data ≠ aoe.issue.command.Read_sectors_with_retry ∧
        aoe.issue.command data ≠ aoe.issue.command.Write_sectors_with_retry)) :
    (process c h s data w).calls = [] ∧ (process c h s data w).world = w := by
  rw [process_of_valid c h s data w hv]
  rcases hu with ⟨h1, h2⟩ | ⟨hi, h1, h2, h3⟩
  · rw [respond_unknown c h s data w h1 h2]
    exact ⟨rfl, rfl⟩
  · rw [respond_unknown_issue c h s data w hi h1 h2 h3]
    exact ⟨rfl, rfl⟩

/-- Witness for C11: the sample server calls nothing for a request with AoE command 2, nor
for an ATA request with opcode 0xca. -/
theorem process_unsupported_silent_witness :
    ((process sample.consts sample.handlers sample.server sample.unknownCommand ()).calls = [] ∧
      (process sample.consts sample.handlers sample.server sample.unknownCommand ()).world = ()) ∧
    ((process sample.consts sample.handlers sample.server sample.unknownIssue ()).calls = [] ∧
      (process sample.consts sample.handlers sample.server sample.unknownIssue ()).world = ()) :=
  ⟨process_unsupported_silent sample.consts sample.handlers sample.server
      sample.unknownCommand () (by decide) (Or.inl (by decide)),
   process_unsupported_silent sample.consts sample.handlers sample.server
      sample.unknownIssue () (by decide) (Or.inr (by decide))⟩

theorem clear_buffer (s : Server) (j : Nat) : (_clear s)._buffer j = 0 := rfl

theorem init_buffer (c : Constants) (s : Server) (j : Nat) : (init c s)._buffer j = 0 := rfl

theorem process_buffer {σ : Type} (c : Constants) (h : Handlers σ) (s : Server)
    (data : Buffer) (w : σ) (hidle : ∀ j, s._buffer j = 0) (j : Nat) :
    (process c h s data w).server._buffer j = 0 := by
  cases hv : _check_valid c s data with
  | false =>
    rw [process_of_invalid c h s data w hv]
    exact hidle j
  | true =>
    rw [process_of_valid c h s data w hv]
    rfl

theorem step_buffer {σ : Type} (c : Constants) (h : Handlers σ) (s : Server) (w : σ)
    (op : Op) (hidle : ∀ j, s._buffer j = 0) (j : Nat) : (step c h s w op).1._buffer j = 0 := by
  cases op with
  | init => exact init_buffer c s j
  | process data => exact process_buffer c h s data w hidle j

theorem run_buffer {σ : Type} (c : Constants) (h : Handlers σ) :
    ∀ (ops : List Op) (s : Server) (w : σ), (∀ j, s._buffer j = 0) →
      ∀ j, (run c h s w ops).1._buffer j = 0 := by
  intro ops
  induction ops with
  | nil =>
    intro s w hidle j
    exact hidle j
  | cons op ops ih =>
    intro s w hidle j
    rw [run]
    exact ih _ _ (fun i => step_buffer c h s w op hidle i) j

/-- C12: in every state that a constructed server reaches by any sequence of `init()` and
`process(frame)` calls, whatever the frames and whatever the collaborators answer, every
byte of the shared buffer is zero; this holds after the constructor, after each call and
so after the whole sequence. -/
theorem buffer_hygiene {σ : Type} (c : Constants) (h : Handlers σ)
    (major minor sectors : Nat) (garbage : Buffer) (w : σ) (ops : List Op) (j : Nat) :
    (run c h (Server.construct major minor sectors garbage) w ops).1._buffer j = 0 :=
  run_buffer c h ops _ w (fun i => clear_buffer _ i) j

end stack

/-! ## Independence of transactions -/

namespace stack

theorem server_eq (s1 s2 : Server) (h1 : s1._major = s2._major) (h2 : s1._minor = s2._minor)
    (h3 : s1._sectors = s2._sectors) (h4 : ∀ j, s1._buffer j = s2._buffer j) : s1 = s2 := by
  cases s1
  cases s2
  simp only at h1 h2 h3 h4
  have h5 := funext h4
  subst h1 h2 h3 h5
  rfl

theorem respond_identity {σ : Type} (c : Constants) (h : Handlers σ) (s : Server)
    (data : Buffer) (w : σ) :
    (respond c h s data w).server._major = s._major ∧
    (respond c h s data w).server._minor = s._minor ∧
    (respond c h s data w).server._sectors = s._sectors := by
  by_cases hq : aoe.command data = aoe.command.Query_config_information
  · rw [respond_query c h s data w hq]
    exact ⟨rfl, rfl, rfl⟩
  by_cases hi : aoe.command data = aoe.command.Issue_ata_command
  · by_cases h1 : aoe.issue.command data = aoe.issue.command.Identify_Device
    · rw [respond_identify c h s data w hi h1]
      exact ⟨rfl, rfl, rfl⟩
    by_cases h2 : aoe.issue.command data = aoe.issue.command.Read_sectors_with_retry
    · rw [respond_read c h s data w hi h2]
      split <;> exact ⟨rfl, rfl, rfl⟩
    by_cases h3 : aoe.issue.command data = aoe.issue.command.Write_sectors_with_retry
    · rw [respond_write c h s data w hi h3]
      split <;> exact ⟨rfl, rfl, rfl⟩
    · rw [respond_unknown_issue c h s data w hi h1 h2 h3]
      exact ⟨rfl, rfl, rfl⟩
  · rw [respond_unknown c h s data w hq hi]
    exact ⟨rfl, rfl, rfl⟩

theorem process_identity {σ : Type} (c : Constants) (h : Handlers σ) (s : Server)
    (data : Buffer) (w : σ) :
    (process c h s data w).server._major = s._major ∧
    (process c h s data w).server._minor = s._minor ∧
    (process c h s data w).server._sectors = s._sectors := by
  cases hv : _check_valid c s data with
  | false =>
    rw [process_of_invalid c h s data w hv]
    exact ⟨rfl, rfl, rfl⟩
  | true =>
    rw [process_of_valid c h s data w hv]
    exact respond_identity c h s data w

theorem step_identity {σ : Type} (c : Constants) (h : Handlers σ) (s : Server) (w : σ)
    (op : Op) :
    (step c h s w op).1._major = s._major ∧
    (step c h s w op).1._minor = s._minor ∧
    (step c h s w op).1._sectors = s._sectors := by
  cases op with
  | init => exact ⟨rfl, rfl, rfl⟩
  | process data => exact process_identity c h s data w

theorem run_identity {σ : Type} (c : Constants) (h : Handlers σ) :
    ∀ (ops : List Op) (s : Server) (w : σ),
      (run c h s w ops).1._major = s._major ∧
      (run c h s w ops).1._minor = s._minor ∧
      (run c h s w ops).1._sectors = s._sectors := by
  intro ops
  induction ops with
  | nil =>
    intro s w
    exact ⟨rfl, rfl, rfl⟩
  | cons op ops ih =>
    intro s w
    rw [run]
    obtain ⟨a1, a2, a3⟩ := ih (step c h s w op).1 (step c h s w op).2
    obtain ⟨b1, b2, b3⟩ := step_identity c h s w op
    exact ⟨a1.trans b1, a2.trans b2, a3.trans b3⟩

/-- C14: `process` leaves major, minor and sector count of any server as they were; and two
servers constructed with the same major, minor and sector count, whatever calls, frames,
collaborators and worlds they have been through since, are in the same state, so that
`process` of any frame in any world gives the same calls, the same transmitted bytes and
length and the same final state for both: no earlier frame influences a later response. -/
theorem transaction_independence {σ : Type} (c : Constants) (h h1 h2 : Handlers σ)
    (major minor sectors : Nat) (g1 g2 : Buffer) (w1 w2 : σ) (ops1 ops2 : List Op)
    (s : Server) (data : Buffer) (w : σ) :
    ((process c h s data w).server._major = s._major ∧
      (process c h s data w).server._minor = s._minor ∧
      (process c h s data w).server._sectors = s._sectors) ∧
    (run c h1 (Server.construct major minor sectors g1) w1 ops1).1
      = (run c h2 (Server.construct major minor sectors g2) w2 ops2).1 ∧
    process c h (run c h1 (Server.construct major minor sectors g1) w1 ops1).1 data w
      = process c h (run c h2 (Server.construct major minor sectors g2) w2 ops2).1 data w := by
  have heq : (run c h1 (Server.construct major minor sectors g1) w1 ops1).1
      = (run c h2 (Server.construct major minor sectors g2) w2 ops2).1 := by
    obtain ⟨a1, a2, a3⟩ := run_identity c h1 ops1 (Server.construct major minor sectors g1) w1
    obtain ⟨b1, b2, b3⟩ := run_identity c h2 ops2 (Server.construct major minor sectors g2) w2
    apply server_eq
    · exact a1.trans b1.symm
    · exact a2.trans b2.symm
    · exact a3.trans b3.symm
    · intro j
      have e1 := run_buffer c h1 ops1 (Server.construct major minor sectors g1) w1
        (fun i => clear_buffer _ i) j
      have e2 := run_buffer c h2 ops2 (Server.construct major minor sectors g2) w2
        (fun i => clear_buffer _ i) j
      rw [e1, e2]
  refine ⟨process_identity c h s data w, heq, ?_⟩
  rw [heq]

end stack

/-! ## Transmits of one transaction -/

namespace stack

/-- The calls of `respond`: either none is a transmit, or the last one is the only
transmit, of the buffer `respond` leaves, with one of the four lengths. -/
theorem respond_calls_shape {σ : Type} (c : Constants) (h : Handlers σ) (s : Server)
    (data : Buffer) (w : σ) :
    (∀ call ∈ (respond c h s data w).calls, call.isTransmitt = false) ∨
    ∃ (pre : List Call) (len : Nat),
      (respond c h s data w).calls
        = pre ++ [Call.transmitt (respond c h s data w).server._buffer len c.timeout] ∧
      (∀ call ∈ pre, call.isTransmitt = false) ∧
      (len = 32 ∨ len = 548 ∨ len = 36 ∨ len = 36 + 512 * aoe.issue.sector_count data) := by
  by_cases hq : aoe.command data = aoe.command.Query_config_information
  · right
    rw [respond_query c h s data w hq]
    exact ⟨[], 32, rfl, fun _ hc => absurd hc (List.not_mem_nil _), Or.inl rfl⟩
  by_cases hi : aoe.command data = aoe.command.Issue_ata_command
  · by_cases h1 : aoe.issue.command data = aoe.issue.command.Identify_Device
    · right
      rw [respond_identify c h s data w hi h1]
      exact ⟨[], 548, rfl, fun _ hc => absurd hc (List.not_mem_nil _), Or.inr (Or.inl rfl)⟩
    by_cases h2 : aoe.issue.command data = aoe.issue.command.Read_sectors_with_retry
    · rw [respond_read c h s data w hi h2]
      by_cases hres : (readRun c h s data w).result = false
      · left
        rw [if_pos hres]
        exact fun call hc => readLoop_calls h _ _ _ _ _ call hc
      · right
        rw [if_neg hres]
        exact ⟨(readRun c h s data w).calls, _, rfl,
          fun call hc => readLoop_calls h _ _ _ _ _ call hc, Or.inr (Or.inr (Or.inr rfl))⟩
    by_cases h3 : aoe.issue.command data = aoe.issue.command.Write_sectors_with_retry
    · rw [respond_write c h s data w hi h3]
      by_cases hres : (writeRun h data w).1 = false
      · left
        rw [if_pos hres]
        exact fun call hc => writeLoop_calls h _ _ _ _ _ call hc
      · right
        rw [if_neg hres]
        exact ⟨(writeRun h data w).2.2, 36, rfl,
          fun call hc => writeLoop_calls h _ _ _ _ _ call hc, Or.inr (Or.inr (Or.inl rfl))⟩
    · left
      rw [respond_unknown_issue c h s data w hi h1 h2 h3]
      exact fun _ hc => absurd hc (List.not_mem_nil _)
  · left
    rw [respond_unknown c h s data w hq hi]
    exact fun _ hc => absurd hc (List.not_mem_nil _)

/-- C16: whatever the frame and whatever the collaborators answer, the calls of one
`process` either contain no transmit at all, or end with the one and only transmit, which
comes after every read and write of the transaction, hands over the shared buffer as
composed, and has length 32, 548, 36 or `36 + 512 * n` for the sector count `n` of the
request. -/
theorem process_transmits_at_most_once {σ : Type} (c : Constants) (h : Handlers σ)
    (s : Server) (data : Buffer) (w : σ) :
    (∀ call ∈ (process c h s data w).calls, call.isTransmitt = false) ∨
    ∃ (pre : List Call) (len : Nat),
      (process c h s data w).calls
        = pre ++ [Call.transmitt (respond c h s data w).server._buffer len c.timeout] ∧
      (∀ call ∈ pre, call.isTransmitt = false) ∧
      (len = 32 ∨ len = 548 ∨ len = 36 ∨ len = 36 + 512 * aoe.issue.sector_count data) := by
  cases hv : _check_valid c s data with
  | false =>
    left
    rw [process_of_invalid c h s data w hv]
    exact fun _ hc => absurd hc (List.not_mem_nil _)
  | true =>
    rw [process_calls_of_valid c h s data w hv]
    exact respond_calls_shape c h s data w

theorem process_transmitted {σ : Type} (c : Constants) (h : Handlers σ) (s : Server)
    (data : Buffer) (w : σ) (frame : Buffer) (len t : Nat)
    (hc : Call.transmitt frame len t ∈ (process c h s data w).calls) :
    ∀ j, j < 24 → frame j = (seeded c s data)._buffer j := by
  cases hv : _check_valid c s data with
  | false =>
    rw [process_of_invalid c h s data w hv] at hc
    exact absurd hc (List.not_mem_nil _)
  | true =>
    rw [process_calls_of_valid c h s data w hv] at hc
    intro j hj
    rw [respond_transmitted c h s data w frame len t hc]
    exact respond_low c h s data w j hj

/-- C18: every frame that `process` hands to the transmit collaborator has the response
flag set; `_check_valid` therefore rejects it for every server, and `process` of that frame
by any server, with any collaborators, calls nothing, so transmits nothing. -/
theorem no_response_loop {σ τ : Type} (c : Constants) (h : Handlers σ) (s : Server)
    (data : Buffer) (w : σ) (frame : Buffer) (len t : Nat)
    (hc : Call.transmitt frame len t ∈ (process c h s data w).calls) :
    aoe.flag_response frame = true ∧
    ∀ (h' : Handlers τ) (s' : Server) (w' : τ),
      _check_valid c s' frame = false ∧ (process c h' s' frame w').calls = [] := by
  have hag := process_transmitted c h s data w frame len t hc
  have hflag : aoe.flag_response frame = true := by
    rw [← seeded_flag_response c s data, aoe.flag_response, aoe.flag_response,
      getBits_congr _ _ _ _ _ (hag 14 (by decide))]
  refine ⟨hflag, ?_⟩
  intro h' s' w'
  have hrej : _check_valid c s' frame = false := by
    cases hv : _check_valid c s' frame with
    | false => rfl
    | true =>
      have h5 := ((check_valid_true_iff c s' frame).mp hv).2.2.2.2.1
      rw [hflag] at h5
      exact absurd h5 (by decide)
  exact ⟨hrej, by rw [process_of_invalid c h' s' frame w' hrej]⟩

/-- Witness for C18: the answer of the sample server to the discovery request has the
response flag set and is rejected by every server, which calls nothing for it. -/
theorem no_response_loop_witness :
    aoe.flag_response sample.discoveryAnswer = true ∧
    ∀ (h' : Handlers Nat) (s' : Server) (w' : Nat),
      _check_valid sample.consts s' sample.discoveryAnswer = false ∧
      (process sample.consts h' s' sample.discoveryAnswer w').calls = [] :=
  no_response_loop sample.consts sample.handlers sample.server sample.discovery ()
    sample.discoveryAnswer 32 1000
    (by
      rw [process_calls_of_valid _ _ _ _ _ (by decide), respond_query _ _ _ _ _ (by decide)]
      exact List.mem_singleton_self _)

end stack

/-! ## Where the sector loops stop -/

namespace stack

theorem respond_read_stop {σ : Type} (c : Constants) (h : Handlers σ) (s : Server)
    (data : Buffer) (w : σ) (k : Nat)
    (hi : aoe.command data = aoe.command.Issue_ata_command)
    (hr : aoe.issue.command data = aoe.issue.command.Read_sectors_with_retry)
    (hk : k < aoe.issue.sector_count data)
    (hbefore : ∀ i, i < k → (readAnswer h (aoe.issue.lba data &&& 0x00ffffff) w i).ok = true)
    (hbad : (readAnswer h (aoe.issue.lba data &&& 0x00ffffff) w k).ok = false) :
    (respond c h s data w).calls
      = (List.range (k + 1)).map
          (fun i => Call.read (i * 512 + 36) ((aoe.issue.lba data &&& 0x00ffffff) + i)) ∧
    (respond c h s data w).world = readWorld h (aoe.issue.lba data &&& 0x00ffffff) w (k + 1) := by
  obtain ⟨r1, r2, r3, -⟩ := readLoop_fail h (aoe.issue.lba data &&& 0x00ffffff) w k hbad
    (aoe.issue.sector_count data) 0 (seeded c s data)._buffer (readRun_bound data)
    (Nat.zero_le _) (by omega) (fun j _ hj => hbefore j hj)
  have e1 : (readRun c h s data w).result = false := r1
  rw [respond_read c h s data w hi hr, if_pos e1, List.range_eq_range']
  exact ⟨r3, r2⟩

theorem respond_write_stop {σ : Type} (c : Constants) (h : Handlers σ) (s : Server)
    (data : Buffer) (w : σ) (k : Nat)
    (hi : aoe.command data = aoe.command.Issue_ata_command)
    (hr : aoe.issue.command data = aoe.issue.command.Write_sectors_with_retry)
    (hk : k < aoe.issue.sector_count data)
    (hbefore : ∀ i, i < k →
      writeAnswer h data (aoe.issue.lba data &&& 0x00ffffff) w i = true)
    (hbad : writeAnswer h data (aoe.issue.lba data &&& 0x00ffffff) w k = false) :
    (respond c h s data w).calls
      = (List.range (k + 1)).map
          (fun i => Call.write (fun j => data (36 + 512 * i + j))
            ((aoe.issue.lba data &&& 0x00ffffff) + i)) ∧
    (respond c h s data w).world
      = writeWorld h data (aoe.issue.lba data &&& 0x00ffffff) w (k + 1) := by
  obtain ⟨r1, r2, r3⟩ := writeLoop_fail h data (aoe.issue.lba data &&& 0x00ffffff) w k hbad
    (aoe.issue.sector_count data) 0 (readRun_bound data)
    (Nat.zero_le _) (by omega) (fun j _ hj => hbefore j hj)
  have e1 : (writeRun h data w).1 = false := r1
  rw [respond_write c h s data w hi hr, if_pos e1, List.range_eq_range']
  simp only [← window_eq]
  exact ⟨r3, r2⟩

/-- C17: when the storage collaborator of an accepted Read- or Write-Sectors-With-Retry
request for `n` sectors at lba `L` first returns false at sector `k`, the calls of `process`
are exactly the `k + 1` reads (or writes) for the addresses `(L & 0x00ffffff) + 0` up to
`(L & 0x00ffffff) + k`, in ascending order, and nothing after them; for a write the world
left behind is the one after those `k + 1` calls, the `k` sectors before the failing one
handed over and not undone. -/
theorem sector_loop_stops {σ : Type} (c : Constants) (h : Handlers σ) (s : Server)
    (data : Buffer) (w : σ) (n L k : Nat)
    (hv : _check_valid c s data = true)
    (hi : aoe.command data = aoe.command.Issue_ata_command)
    (hn : aoe.issue.sector_count data = n)
    (hL : aoe.issue.lba data = L)
    (hk : k < n) :
    (aoe.issue.command data = aoe.issue.command.Read_sectors_with_retry →
      (∀ i, i < k → (readAnswer h (L &&& 0x00ffffff) w i).ok = true) →
      (readAnswer h (L &&& 0x00ffffff) w k).ok = false →
      (process c h s data w).calls
        = (List.range (k + 1)).map
            (fun i => Call.read (i * 512 + 36) ((L &&& 0x00ffffff) + i)) ∧
      (process c h s data w).world = readWorld h (L &&& 0x00ffffff) w (k + 1)) ∧
    (aoe.issue.command data = aoe.issue.command.Write_sectors_with_retry →
      (∀ i, i < k → writeAnswer h data (L &&& 0x00ffffff) w i = true) →
      writeAnswer h data (L &&& 0x00ffffff) w k = false →
      (process c h s data w).calls
        = (List.range (k + 1)).map
            (fun i => Call.write (fun j => data (36 + 512 * i + j)) ((L &&& 0x00ffffff) + i)) ∧
      (process c h s data w).world = writeWorld h data (L &&& 0x00ffffff) w (k + 1)) := by
  subst hn hL
  rw [process_of_valid c h s data w hv]
  exact ⟨fun hr hb hbad => respond_read_stop c h s data w k hi hr hk hb hbad,
    fun hr hb hbad => respond_write_stop c h s data w k hi hr hk hb hbad⟩

/-- Witness for C17: of 4 sectors read from lba 100 the third read fails, after three
calls; of 2 sectors written to lba 100 the second write fails, after two calls. -/
theorem sector_loop_stops_witness :
    ((process sample.consts (sample.failing 2) sample.server sample.readRequest 0).calls
        = (List.range 3).map (fun i => Call.read (i * 512 + 36) ((100 &&& 0x00ffffff) + i)) ∧
      (process sample.consts (sample.failing 2) sample.server sample.readRequest 0).world
        = readWorld (sample.failing 2) (100 &&& 0x00ffffff) 0 3) ∧
    ((process sample.consts (sample.failing 1) sample.server sample.writeRequest 0).calls
        = (List.range 2).map
            (fun i => Call.write (fun j => sample.writeRequest (36 + 512 * i + j))
              ((100 &&& 0x00ffffff) + i)) ∧
      (process sample.consts (sample.failing 1) sample.server sample.writeRequest 0).world
        = writeWorld (sample.failing 1) sample.writeRequest (100 &&& 0x00ffffff) 0 2) :=
  ⟨(sector_loop_stops sample.consts (sample.failing 2) sample.server sample.readRequest 0
      4 100 2 (by decide) (by decide) (by decide) (by decide) (by decide)).1
      (by decide) (by decide) (by decide),
   (sector_loop_stops sample.consts (sample.failing 1) sample.server sample.writeRequest 0
      2 100 1 (by decide) (by decide) (by decide) (by decide) (by decide)).2
      (by decide) (by decide) (by decide)⟩

end stack

/-! ## The frame composed by `init` -/

namespace stack

theorem filled_destination (c : Constants) (s : Server) (d cmd tag : Nat) :
    eth.destination (_fill_header_aoe c (_fill_header_eth s d) cmd tag)._buffer
      = d % 256 ^ 6 := by
  simp (disch := decide) only [_fill_header_aoe, _fill_header_eth, eth.destination,
    eth.set_destination, eth.set_source, eth.set_type, aoe.set_version, aoe.set_flag_response,
    aoe.set_flag_error, aoe.set_error, aoe.set_address_major, aoe.set_address_minor,
    aoe.set_command, aoe.set_tag, getBytes_setBytes_other, getBytes_setBits_other,
    getBytes_setBytes_same]
  rfl

theorem filled_address_major (c : Constants) (s : Server) (d cmd tag : Nat) :
    aoe.address_major (_fill_header_aoe c (_fill_header_eth s d) cmd tag)._buffer
      = s._major % 65536 := by
  simp (disch := decide) only [_fill_header_aoe, _fill_header_eth, aoe.address_major,
    aoe.set_address_major, aoe.set_address_minor, aoe.set_command, aoe.set_tag,
    getBytes_setBytes_other, getBytes_setBytes_same]
  rfl

theorem filled_address_minor (c : Constants) (s : Server) (d cmd tag : Nat) :
    aoe.address_minor (_fill_header_aoe c (_fill_header_eth s d) cmd tag)._buffer
      = s._minor % 256 := by
  simp (disch := decide) only [_fill_header_aoe, _fill_header_eth, aoe.address_minor,
    aoe.set_address_minor, aoe.set_command, aoe.set_tag,
    getBytes_setBytes_other, getBytes_setBytes_same]
  rfl

theorem filled_command (c : Constants) (s : Server) (d cmd tag : Nat) :
    aoe.command (_fill_header_aoe c (_fill_header_eth s d) cmd tag)._buffer
      = cmd % 256 := by
  simp (disch := decide) only [_fill_header_aoe, aoe.command, aoe.set_command,
    aoe.set_tag, getBytes_setBytes_other, getBytes_setBytes_same]
  simp only [List.length_singleton]
  omega

theorem init_composed_low (c : Constants) (s : Server) (j : Nat) (hj : j < 24) :
    init_composed c s j
      = (_fill_header_aoe c (_fill_header_eth s eth.address.Broadcast)
          aoe.command.Query_config_information 0)._buffer j :=
  fill_data_aoe_query_other c _ j (Or.inl hj)

/-- Counterexample for C15: the frame that `init` composes for the sample server, whose
major is 7 and minor 3, does not carry the wildcards 0xFFFF and 0xFF but 7 and 3. -/
theorem init_announce_counterexample :
    ¬ (aoe.address_major (init_composed sample.consts sample.server) = 0xffff ∧
        aoe.address_minor (init_composed sample.consts sample.server) = 0xff) ∧
    aoe.address_major (init_composed sample.consts sample.server) = 7 ∧
    aoe.address_minor (init_composed sample.consts sample.server) = 3 := by
  decide

/-- C15, amended: the frame that `init` composes in the shared buffer is a
Query-Config-Information frame whose Ethernet destination is the broadcast address and
whose major and minor are those of the server itself (a 16-bit major and an 8-bit minor),
not the wildcards; `init` calls no collaborator, so makes no transmit call, and leaves the
world as it was. -/
theorem init_announce {σ : Type} (c : Constants) (s : Server) (w : σ)
    (hmajor : s._major < 65536) (hminor : s._minor < 256) :
    aoe.command (init_composed c s) = aoe.command.Query_config_information ∧
    eth.destination (init_composed c s) = eth.address.Broadcast ∧
    aoe.address_major (init_composed c s) = s._major ∧
    aoe.address_minor (init_composed c s) = s._minor ∧
    (initialise c s w).calls = [] ∧
    (initialise c s w).world = w := by
  have hag := init_composed_low c s
  refine ⟨?_, ?_, ?_, ?_, rfl, rfl⟩
  · rw [aoe.command, getBytes_agree _ 24 _ _ (by decide) hag]
    exact filled_command c s _ _ _
  · rw [eth.destination, getBytes_agree _ 24 _ _ (by decide) hag]
    exact filled_destination c s _ _ _
  · rw [aoe.address_major, getBytes_agree _ 24 _ _ (by decide) hag]
    exact (filled_address_major c s _ _ _).trans (Nat.mod_eq_of_lt hmajor)
  · rw [aoe.address_minor, getBytes_agree _ 24 _ _ (by decide) hag]
    exact (filled_address_minor c s _ _ _).trans (Nat.mod_eq_of_lt hminor)

/-- Witness for C15, amended: the frame that `init` composes for the sample server is a
config query to the broadcast address with major 7 and minor 3, and nothing is called. -/
theorem init_announce_witness :
    aoe.command (init_composed sample.consts sample.server) = 1 ∧
    eth.destination (init_composed sample.consts sample.server) = 0xffffffffffff ∧
    aoe.address_major (init_composed sample.consts sample.server) = 7 ∧
    aoe.address_minor (init_composed sample.consts sample.server) = 3 ∧
    (initialise sample.consts sample.server ()).calls = [] ∧
    (initialise sample.consts sample.server ()).world = () :=
  init_announce sample.consts sample.server () (by decide) (by decide)

end stack

/-! ## Writing and reading back -/

namespace stack

theorem check_valid_congr (c : Constants) (s s' : Server) (data : Buffer)
    (h1 : s'._major = s._major) (h2 : s'._minor = s._minor) :
    _check_valid c s' data = _check_valid c s data := by
  simp only [_check_valid, h1, h2]

theorem respond_read_ok {σ : Type} (c : Constants) (h : Handlers σ) (s : Server)
    (data : Buffer) (w : σ)
    (hi : aoe.command data = aoe.command.Issue_ata_command)
    (hr : aoe.issue.command data = aoe.issue.command.Read_sectors_with_retry)
    (hok : ∀ i, i < aoe.issue.sector_count data →
      (readAnswer h (aoe.issue.lba data &&& 0x00ffffff) w i).ok = true) :
    (respond c h s data w).calls
      = (List.range (aoe.issue.sector_count data)).map
          (fun i => Call.read (i * 512 + 36) ((aoe.issue.lba data &&& 0x00ffffff) + i))
        ++ [Call.transmitt (readDone c h s data w)._buffer
              (36 + 512 * aoe.issue.sector_count data) c.timeout] ∧
    (∀ i j, i < aoe.issue.sector_count data → j < 512 →
      (readDone c h s data w)._buffer (i * 512 + 36 + j)
        = (readAnswer h (aoe.issue.lba data &&& 0x00ffffff) w i).bytes j) := by
  obtain ⟨r1, -, r3, -, r5⟩ := readLoop_ok h (aoe.issue.lba data &&& 0x00ffffff) w
    (aoe.issue.sector_count data) 0 (seeded c s data)._buffer (readRun_bound data)
    (fun k _ hk => hok k (by omega))
  have e1 : (readRun c h s data w).result = true := r1
  constructor
  · rw [respond_read c h s data w hi hr, if_neg (by rw [e1]; decide), List.range_eq_range']
    exact congrArg (fun l => l ++ _) r3
  · intro i j hin hj
    rw [readDone, fill_header_aoe_issue_other _ _ _ _ (by omega)]
    exact r5 i j (Nat.zero_le _) (by omega) hj

theorem respond_write_ok {σ : Type} (c : Constants) (h : Handlers σ) (s : Server)
    (data : Buffer) (w : σ)
    (hi : aoe.command data = aoe.command.Issue_ata_command)
    (hr : aoe.issue.command data = aoe.issue.command.Write_sectors_with_retry)
    (hok : ∀ i, i < aoe.issue.sector_count data →
      writeAnswer h data (aoe.issue.lba data &&& 0x00ffffff) w i = true) :
    (respond c h s data w).world
      = (h.transmitt (writeWorld h data (aoe.issue.lba data &&& 0x00ffffff) w
            (aoe.issue.sector_count data)) (writeDone c h s data w)._buffer 36 c.timeout).2 := by
  obtain ⟨r1, r2, -⟩ := writeLoop_ok h data (aoe.issue.lba data &&& 0x00ffffff) w
    (aoe.issue.sector_count data) 0 (readRun_bound data) (fun k _ hk => hok k (by omega))
  have e1 : (writeRun h data w).1 = true := r1
  have e2 : (writeRun h data w).2.1
      = writeWorld h data (aoe.issue.lba data &&& 0x00ffffff) w
          (aoe.issue.sector_count data) := by
    rw [show aoe.issue.sector_count data = 0 + aoe.issue.sector_count data by omega]
    exact r2
  rw [respond_write c h s data w hi hr, if_neg (by rw [e1]; decide)]
  simp only [e2]

theorem store_written (data : Buffer) (lba : Nat) (st : Store) :
    ∀ (n i : Nat), i < n →
      writeWorld storeHandlers data lba st n (lba + i) = window data (i * 512 + 36) := by
  intro n
  induction n with
  | zero =>
    intro i hi
    omega
  | succ n ih =>
    intro i hi
    have hstep : writeWorld storeHandlers data lba st (n + 1) (lba + i)
        = if lba + i = lba + n then window data (n * 512 + 36)
          else writeWorld storeHandlers data lba st n (lba + i) := rfl
    rw [hstep]
    by_cases e : i = n
    · subst e
      rw [if_pos rfl]
    · rw [if_neg (by omega)]
      exact ih i (by omega)

theorem store_readWorld (lba : Nat) (st : Store) :
    ∀ i, readWorld storeHandlers lba st i = st := by
  intro i
  induction i with
  | zero => rfl
  | succ i ih =>
    rw [readWorld, ih]
    rfl

/-- C13: with the read and write collaborators backed by one sector store, an accepted
Write-Sectors-With-Retry request for `n` sectors at lba `L` followed by an accepted
Read-Sectors-With-Retry request for the same `n` and `L` makes `process` transmit a frame
of `36 + 512 * n` bytes whose bytes from offset 36 on are the payload of the write request;
this holds for every sector count of a request, among them 1, 2 and 255. -/
theorem store_round_trip (c : Constants) (s : Server) (dataW dataR : Buffer) (st : Store)
    (n L : Nat)
    (hvW : _check_valid c s dataW = true)
    (hiW : aoe.command dataW = aoe.command.Issue_ata_command)
    (hwW : aoe.issue.command dataW = aoe.issue.command.Write_sectors_with_retry)
    (hnW : aoe.issue.sector_count dataW = n)
    (hLW : aoe.issue.lba dataW = L)
    (hvR : _check_valid c s dataR = true)
    (hiR : aoe.command dataR = aoe.command.Issue_ata_command)
    (hrR : aoe.issue.command dataR = aoe.issue.command.Read_sectors_with_retry)
    (hnR : aoe.issue.sector_count dataR = n)
    (hLR : aoe.issue.lba dataR = L) :
    ∃ frame : Buffer,
      (process c storeHandlers (process c storeHandlers s dataW st).server dataR
          (process c storeHandlers s dataW st).world).calls
        = (List.range n).map (fun i => Call.read (i * 512 + 36) ((L &&& 0x00ffffff) + i))
          ++ [Call.transmitt frame (36 + 512 * n) c.timeout] ∧
      ∀ p, 36 ≤ p → p < 36 + 512 * n → frame p = dataW p := by
  subst hnW hLW
  have hworld : (process c storeHandlers s dataW st).world
      = writeWorld storeHandlers dataW (aoe.issue.lba dataW &&& 0x00ffffff) st
          (aoe.issue.sector_count dataW) := by
    rw [process_of_valid c storeHandlers s dataW st hvW]
    exact respond_write_ok c storeHandlers s dataW st hiW hwW (fun _ _ => rfl)
  obtain ⟨i1, i2, -⟩ := process_identity c storeHandlers s dataW st
  have hv2 : _check_valid c (process c storeHandlers s dataW st).server dataR = true := by
    rw [check_valid_congr c s _ dataR i1 i2]
    exact hvR
  rw [hworld]
  obtain ⟨q1, q2⟩ := respond_read_ok c storeHandlers (process c storeHandlers s dataW st).server
    dataR (writeWorld storeHandlers dataW (aoe.issue.lba dataW &&& 0x00ffffff) st
      (aoe.issue.sector_count dataW)) hiR hrR (fun _ _ => rfl)
  rw [hnR, hLR] at q1 q2
  refine ⟨(readDone c storeHandlers (process c storeHandlers s dataW st).server dataR
    (writeWorld storeHandlers dataW (aoe.issue.lba dataW &&& 0x00ffffff) st
      (aoe.issue.sector_count dataW)))._buffer, ?_, ?_⟩
  · rw [process_calls_of_valid c storeHandlers _ dataR _ hv2]
    exact q1
  · intro p hp1 hp2
    have hi : (p - 36) / 512 < aoe.issue.sector_count dataW := by omega
    have hj : (p - 36) % 512 < 512 := Nat.mod_lt _ (by decide)
    have hp : p = (p - 36) / 512 * 512 + 36 + (p - 36) % 512 := by omega
    have q := q2 ((p - 36) / 512) ((p - 36) % 512) hi hj
    rw [← hp] at q
    rw [q]
    have hb : (readAnswer storeHandlers (aoe.issue.lba dataW &&& 0x00ffffff)
        (writeWorld storeHandlers dataW (aoe.issue.lba dataW &&& 0x00ffffff) st
          (aoe.issue.sector_count dataW)) ((p - 36) / 512)).bytes
        = writeWorld storeHandlers dataW (aoe.issue.lba dataW &&& 0x00ffffff) st
            (aoe.issue.sector_count dataW)
            ((aoe.issue.lba dataW &&& 0x00ffffff) + (p - 36) / 512) := by
      rw [readAnswer, store_readWorld]
      rfl
    rw [hb, store_written dataW _ st _ _ hi, window]
    exact congrArg dataW hp.symm

/-- Witness for C13: 2 sectors written to lba 100 and read back, and 255 sectors written
to lba 100 and read back, from an empty store. -/
theorem store_round_trip_witness :
    (∃ frame : Buffer,
      (process sample.consts storeHandlers
          (process sample.consts storeHandlers sample.server sample.writeRequest
            sample.emptyStore).server sample.readBack
          (process sample.consts storeHandlers sample.server sample.writeRequest
            sample.emptyStore).world).calls
        = (List.range 2).map (fun i => Call.read (i * 512 + 36) ((100 &&& 0x00ffffff) + i))
          ++ [Call.transmitt frame (36 + 512 * 2) 1000] ∧
      ∀ p, 36 ≤ p → p < 36 + 512 * 2 → frame p = sample.writeRequest p) ∧
    (∃ frame : Buffer,
      (process sample.consts storeHandlers
          (process sample.consts storeHandlers sample.server (sample.bulk 0x30)
            sample.emptyStore).server (sample.bulk 0x20)
          (process sample.consts storeHandlers sample.server (sample.bulk 0x30)
            sample.emptyStore).world).calls
        = (List.range 255).map (fun i => Call.read (i * 512 + 36) ((100 &&& 0x00ffffff) + i))
          ++ [Call.transmitt frame (36 + 512 * 255) 1000] ∧
      ∀ p, 36 ≤ p → p < 36 + 512 * 255 → frame p = sample.bulk 0x30 p) :=
  ⟨store_round_trip sample.consts sample.server sample.writeRequest sample.readBack
      sample.emptyStore 2 100 (by decide) (by decide) (by decide) (by decide) (by decide)
      (by decide) (by decide) (by decide) (by decide) (by decide),
   store_round_trip sample.consts sample.server (sample.bulk 0x30) (sample.bulk 0x20)
      sample.emptyStore 255 100 (by decide) (by decide) (by decide) (by decide) (by decide)
      (by decide) (by decide) (by decide) (by decide) (by decide)⟩

end stack

end AoE
